import Mathlib

/-! # MissionManager (caric_mission): keyframe admission, dissemination and liveness

A shallow embedding of `src/MissionManager.cpp`.

* The module-level globals (`Nnodes`, `nodeName`, `nodeRole`, `nodeOdom`, `nodeStatus`,
  `nodeAlive`, `linkMat`, `kfPose`, `kfCloud` and the function-static `firstshot`) are the
  fields of `State`; every callback is a function from the state before to the state after,
  paired with the list of messages it emits (publications and service calls), in order.
* `double`, `float` and `ros::Time::toSec()` values are rationals, as every floating-point
  number is one, and comparisons are exact. Time stamps are exact seconds. The rounded
  results that decide a test of the source are not recomputed: the float squared distances
  of the nearest-neighbour search, the rounding of the double product
  `kf_min_dis*kf_min_dis` and the double returned by `vel.norm()` are taken from `Ext`, and
  the literal `0.1` is the double it denotes.
* Reading a `std::vector` outside its bounds is undefined in the source; the accessors used
  here (`List.getD`) return a default there, and the theorems that depend on such a read
  carry the bound as a hypothesis.
* A callback that cannot complete (failed `assert`, exception, `front()` of an empty vector)
  returns `none`.
* The callbacks are run one at a time; the interleaving of threads is not modelled.
-/

namespace MissionManager

/-! ## Data model -/

/-- Eigen quaternion of doubles, constructor order (w, x, y, z). -/
structure Quaternd where
  w : ℚ
  x : ℚ
  y : ℚ
  z : ℚ
deriving DecidableEq, Inhabited

/-- Eigen 3-vector of doubles. -/
structure Vector3d where
  x : ℚ
  y : ℚ
  z : ℚ
deriving DecidableEq, Inhabited

/-- Point of a lidar scan (pcl PointXYZI). -/
structure PointXYZI where
  x : ℚ
  y : ℚ
  z : ℚ
  intensity : ℚ
deriving DecidableEq, Inhabited

/-- Scan: CloudXYZI. -/
abbrev CloudXYZI := List PointXYZI

/-- Key pose stored in `kfPose`: position, orientation and time stamp. -/
structure PointPose where
  x : ℚ
  y : ℚ
  z : ℚ
  qx : ℚ
  qy : ℚ
  qz : ℚ
  qw : ℚ
  t : ℚ
deriving DecidableEq, Inhabited

/-- Neighbour odometry point published on `nbr_odom_cloud`. -/
structure PointOdom where
  intensity : ℚ
  t : ℚ
  x : ℚ
  y : ℚ
  z : ℚ
  qx : ℚ
  qy : ℚ
  qz : ℚ
  qw : ℚ
  vx : ℚ
  vy : ℚ
  vz : ℚ
  ax : ℚ
  ay : ℚ
  az : ℚ
deriving DecidableEq, Inhabited

/-- The fields of nav_msgs::Odometry that the program reads. -/
structure OdomMsg where
  stamp : ℚ
  position : Vector3d
  orientation : Quaternd
  linear : Vector3d
  angular : Vector3d
deriving DecidableEq, Inhabited

/-- The fields of sensor_msgs::PointCloud2 that the program reads. -/
structure CloudMsg where
  stamp : ℚ
  points : CloudXYZI
deriving DecidableEq, Inhabited

/-- One entry of a gazebo Contacts message. -/
structure Contact where
  collision1 : String
  collision2 : String
deriving DecidableEq, Inhabited

/-- The message rotors_comm::PPComTopology, without its output field node_alive. -/
structure PPComTopology where
  stamp : ℚ
  node_id : List String
  node_role : List String
  node_odom : List OdomMsg
  range : List ℚ
deriving DecidableEq, Inhabited

/-- Rigid transform `myTf<double>`: rotation and translation. -/
structure myTf where
  rot : Quaternd
  pos : Vector3d
deriving DecidableEq, Inhabited

/-- Dense matrix of doubles (Eigen MatrixXd): its size and its coefficients.
Coefficients outside `rows × cols` are never read by the program. -/
structure MatrixXd where
  rows : Nat
  cols : Nat
  coeff : Nat → Nat → ℚ

/-- Assignment `m(i, j) = v`. -/
def MatrixXd.set (m : MatrixXd) (i j : Nat) (v : ℚ) : MatrixXd :=
  { m with coeff := fun a b => if a = i ∧ b = j then v else m.coeff a b }

/-- The matrix `-Eigen::MatrixXd::Ones(r, c)`. -/
def MatrixXd.negOnes (r c : Nat) : MatrixXd :=
  { rows := r, cols := c, coeff := fun _ _ => -1 }

/-- Everything the callbacks send out, in the order sent. -/
inductive Event where
  | serviceCall (service : String) (message : String)
  | kfPosePub (idx : Nat) (poses : List PointPose) (stamp : ℚ)
  | slfKfCloudPub (idx : Nat) (cloud : CloudXYZI) (stamp : ℚ)
  | nbrKfCloudPub (idx : Nat) (cloud : CloudXYZI) (stamp : ℚ)
  | cloudInWPub (idx : Nat) (cloud : CloudXYZI) (stamp : ℚ)
  | ppcomDoAPub (msg : PPComTopology) (node_alive : List Bool)
  | nbrOdomPub (idx : Nat) (cloud : List PointOdom) (stamp : ℚ)
deriving DecidableEq

/-- The global variables of the program. -/
structure State where
  firstshot : Bool
  Nnodes : Nat
  nodeName : List String
  nodeRole : List String
  nodeOdom : List OdomMsg
  nodeStatus : List String
  nodeAlive : List Bool
  linkMat : MatrixXd
  kfPose : List (List PointPose)
  kfCloud : List (List CloudXYZI)

/-- The globals as they are when the program starts. -/
def State.init : State :=
  { firstshot := true, Nnodes := 0, nodeName := [], nodeRole := [], nodeOdom := [],
    nodeStatus := [], nodeAlive := [], linkMat := { rows := 0, cols := 0, coeff := fun _ _ => 0 },
    kfPose := [], kfCloud := [] }

/-- The SLAM parameters, set once in `main`. -/
structure Params where
  tf_B_L : myTf
  kf_knn_num : Int
  kf_min_dis : ℚ
  kf_min_ang : ℚ
  kf_voxsize : ℚ

/-- The defaults of the source: tf_B_L = (identity, (0, 0, 0.2)), kf_knn_num = 5,
kf_min_dis = 2, kf_min_ang = 10, kf_voxsize = 0.5. -/
def Params.default : Params :=
  { tf_B_L := { rot := { w := 1, x := 0, y := 0, z := 0 }, pos := { x := 0, y := 0, z := 1/5 } },
    kf_knn_num := 5, kf_min_dis := 2, kf_min_ang := 10, kf_voxsize := 1/2 }

/-- Library and utility functions whose code is not part of MissionManager.cpp, taken as
parameters: pcl UniformSampling with a search radius, pcl transformPointCloud by the
product of two transforms, Util::angleDiff, and the floating-point results that the
callbacks compare: the squared distance of two key-pose positions as the kd-tree computes
it in `float`, the rounding of a real number to the nearest `double`, and the `double`
that Eigen returns for the norm of a vector. -/
structure Ext where
  uniformSampling : ℚ → CloudXYZI → CloudXYZI
  transformPointCloud : myTf → myTf → CloudXYZI → CloudXYZI
  angleDiff : Quaternd → Quaternd → ℚ
  squaredDistance : PointPose → PointPose → ℚ
  roundDouble : ℚ → ℚ
  norm : Vector3d → ℚ

/-! ## String search -/

/-- Whether `pat` occurs somewhere in `hay` (lists of characters). -/
def findIn (pat : List Char) : List Char → Bool
  | [] => pat.isPrefixOf []
  | c :: cs => pat.isPrefixOf (c :: cs) || findIn pat cs

/-- The test `hay.find(pat) != std::string::npos`. -/
def strFind (hay pat : String) : Bool := findIn pat.data hay.data

/-! ## ContactCallback -/

/-- The request message of the stop service; KRED and RESET are the colour escapes. -/
def stopMessage (name : String) : String :=
  "\x1b[31mCollision happens over " ++ name ++ ". Control Stopped!\x1b[0m"

/-- The name of the stop service of a node. -/
def stopService (name : String) : String := "/" ++ name ++ "/stop"

/-- The disjunction `colide_case1 || colide_case2` for a node name and one contact: the
name occurs in one collision string and "ground_plane" does not occur in the other. -/
def touches (name : String) (c : Contact) : Bool :=
  let colide_case1 := strFind c.collision1 name && !strFind c.collision2 "ground_plane"
  let colide_case2 := strFind c.collision2 name && !strFind c.collision1 "ground_plane"
  colide_case1 || colide_case2

/-- The condition `(colide_case1 || colide_case2) && on_air` for one contact and one node,
after the `manager` role has been skipped. -/
def collides (s : State) (c : Contact) (node_idx : Nat) : Bool :=
  let on_air := s.nodeStatus.getD node_idx "" == "on_air"
  touches (s.nodeName.getD node_idx "") c && on_air

/-- Body of the inner loop of ContactCallback, for one contact and one node index. -/
def contactNode (c : Contact) (acc : State × List Event) (node_idx : Nat) :
    State × List Event :=
  let s := acc.1
  if s.nodeRole.getD node_idx "" = "manager" then acc
  else if collides s c node_idx then
    let name := s.nodeName.getD node_idx ""
    ({ s with nodeAlive := s.nodeAlive.set node_idx false },
      acc.2 ++ [Event.serviceCall (stopService name) (stopMessage name)])
  else acc

/-- Body of the outer loop of ContactCallback: one contact against every node. -/
def contactOne (acc : State × List Event) (c : Contact) : State × List Event :=
  (List.range acc.1.Nnodes).foldl (contactNode c) acc

/-- ContactCallback: the state after the batch and the stop calls made. The local vector
`deadNode` is written and never read, and is left out. -/
def ContactCallback (s : State) (msg : List Contact) : State × List Event :=
  if s.Nnodes = 0 then (s, [])
  else msg.foldl contactOne (s, [])

/-! ## UpdateSLAMDatabase -/

/-- The condition under which the neighbour loop of UpdateSLAMDatabase does not skip
`nbrIdx`: not self, alive, and `linkMat(slfIdx, nbrIdx) < 0.0` false. -/
def forwardsTo (s : State) (slfIdx nbrIdx : Nat) : Bool :=
  !(nbrIdx == slfIdx || s.nodeAlive.getD nbrIdx false == false
      || decide (s.linkMat.coeff slfIdx nbrIdx < 0))

/-- UpdateSLAMDatabase: downsample the cloud, store pose and cloud, publish both, and
publish the cloud to every neighbour that passes the line-of-sight test. -/
def UpdateSLAMDatabase (E : Ext) (P : Params) (s : State) (slfIdx : Nat) (pose : PointPose)
    (cloud : CloudXYZI) : State × List Event :=
  let cloud := E.uniformSampling P.kf_voxsize cloud
  let poses := s.kfPose.getD slfIdx [] ++ [pose]
  let s1 : State :=
    { s with kfPose := s.kfPose.set slfIdx poses,
             kfCloud := s.kfCloud.set slfIdx (s.kfCloud.getD slfIdx [] ++ [cloud]) }
  (s1, [Event.kfPosePub slfIdx poses pose.t, Event.slfKfCloudPub slfIdx cloud pose.t]
        ++ ((List.range s.Nnodes).filter (forwardsTo s slfIdx)).map
            (fun nbrIdx => Event.nbrKfCloudPub nbrIdx cloud pose.t))

/-! ## OdomCloudCallback -/

/-- Modelled from the spec: the constructor `myTf<double>(const nav_msgs::Odometry &)` of
utility.h, which is not among the sources; it takes the orientation and the position of
the odometry message. -/
def myTf.ofOdom (odom : OdomMsg) : myTf :=
  { rot := odom.orientation, pos := odom.position }

/-- Modelled from the spec: `myTf::Pose6D(double time)` of utility.h, which is not among
the sources; the key pose carries the position and orientation of the transform and the
given time stamp. -/
def myTf.Pose6D (tf : myTf) (time : ℚ) : PointPose :=
  { x := tf.pos.x, y := tf.pos.y, z := tf.pos.z,
    qx := tf.rot.x, qy := tf.rot.y, qz := tf.rot.z, qw := tf.rot.w, t := time }

/-- Squared distance between the positions of two key poses, without rounding. -/
def sqDist (a b : PointPose) : ℚ :=
  (a.x - b.x) ^ 2 + (a.y - b.y) ^ 2 + (a.z - b.z) ^ 2

/-- Index of every point of the cloud and its squared distance to `q`, the `float` that the
kd-tree computes. -/
def knnCandidates (E : Ext) (cloud : List PointPose) (q : PointPose) : List (Nat × ℚ) :=
  (List.range cloud.length).map (fun i => (i, E.squaredDistance (cloud.getD i default) q))

/-- Order of the search result: by squared distance. -/
def nearer (a b : Nat × ℚ) : Prop := a.2 ≤ b.2

instance : DecidableRel nearer := fun a b => inferInstanceAs (Decidable (a.2 ≤ b.2))

instance : IsTotal (Nat × ℚ) nearer := ⟨fun a b => le_total a.2 b.2⟩

instance : IsTrans (Nat × ℚ) nearer := ⟨fun _ _ _ hab hbc => le_trans hab hbc⟩

/-- The library call pcl::KdTreeFLANN::nearestKSearch, by its contract: the indices and
`float` squared distances of the `min k n` points nearest to `q` by position, nearest
first. -/
def nearestKSearch (E : Ext) (cloud : List PointPose) (q : PointPose) (k : Nat) :
    List Nat × List ℚ :=
  let best := ((knnCandidates E cloud q).insertionSort nearer).take k
  (best.map Prod.fst, best.map Prod.snd)

/-- The quaternion `Qa` built from a stored key pose. -/
def PointPose.quat (p : PointPose) : Quaternd :=
  { w := p.qw, x := p.qx, y := p.qy, z := p.qz }

/-- The loop computing `far_angle`: true unless some neighbour has
`fabs(Util::angleDiff(Qa, Qb)) < kf_min_ang`. -/
def farAngle (E : Ext) (P : Params) (kf : List PointPose) (Qb : Quaternd)
    (knn_idx : List Nat) : Bool :=
  knn_idx.all (fun kf_idx =>
    !decide (abs (E.angleDiff (kf.getD kf_idx default).quat Qb) < P.kf_min_ang))

/-- OdomCloudCallback for node `idx`. The branch `kfPose[idx]->size() == 0` is the case
where the stored list has no last element. The result is `none` where the source has no
defined result: a negative kf_knn_num (the vector constructor throws) or a search result
with no front element. -/
def OdomCloudCallback (E : Ext) (P : Params) (s : State) (odomMsg : OdomMsg)
    (cloudMsg : CloudMsg) (idx : Nat) : Option (State × List Event) :=
  if s.nodeAlive.getD idx false = false then some (s, [])
  else
    let time_diff := cloudMsg.stamp - odomMsg.stamp
    if time_diff > 1 / 1000 then some (s, [])
    else
      let tf_W_B := myTf.ofOdom odomMsg
      let pose_W_B := tf_W_B.Pose6D odomMsg.stamp
      let cloud := E.transformPointCloud tf_W_B P.tf_B_L cloudMsg.points
      let shown := [Event.cloudInWPub idx cloud cloudMsg.stamp]
      let kf := s.kfPose.getD idx []
      match kf.getLast? with
      | none =>
        let r := UpdateSLAMDatabase E P s idx (tf_W_B.Pose6D odomMsg.stamp) cloud
        some (r.1, shown ++ r.2)
      | some back =>
        if odomMsg.stamp - back.t > 1 then
          if P.kf_knn_num < 0 then none
          else
            let found := nearestKSearch E kf pose_W_B P.kf_knn_num.toNat
            match found.2.head? with
            | none => none
            | some front =>
              let far_distance :=
                decide (front > E.roundDouble (P.kf_min_dis * P.kf_min_dis))
              let far_angle := farAngle E P kf tf_W_B.rot found.1
              if far_distance || far_angle then
                let r := UpdateSLAMDatabase E P s idx (tf_W_B.Pose6D odomMsg.stamp) cloud
                some (r.1, shown ++ r.2)
              else some (s, shown)
        else some (s, shown)

/-! ## PPComCallback -/

/-- The two assignments `linkMat(i,j) = range[range_idx]; linkMat(j,i) = linkMat(i,j);`
followed by `range_idx++`. -/
def linkStep (range : List ℚ) (i : Nat) (acc : MatrixXd × Nat) (j : Nat) : MatrixXd × Nat :=
  let m1 := acc.1.set i j (range.getD acc.2 0)
  (m1.set j i (m1.coeff i j), acc.2 + 1)

/-- The inner loop `for (j = i+1; j < Nnodes; j++)`. -/
def linkRow (range : List ℚ) (N : Nat) (acc : MatrixXd × Nat) (i : Nat) : MatrixXd × Nat :=
  (List.range' (i + 1) (N - (i + 1))).foldl (linkStep range i) acc

/-- The loop "Update the distance": the matrix after it. -/
def updateDistance (range : List ℚ) (N : Nat) (m : MatrixXd) : MatrixXd :=
  ((List.range N).foldl (linkRow range N) (m, 0)).1

/-- The value of the literal `0.1` of the source: the double nearest to one tenth,
3602879701896397 / 2^55, a little above one tenth. -/
def double_0_1 : ℚ := 3602879701896397 / 36028797018963968

/-- Body of the loop "Update the status" for node `i`: `vel` is the linear velocity of the
odometry of the node, `E.norm vel` the double that `vel.norm()` returns, and both tests
compare doubles with the literal `0.1`. -/
def statusStep (E : Ext) (nodeOdom : List OdomMsg) (nodeStatus : List String) (i : Nat) :
    List String :=
  let odom := nodeOdom.getD i default
  let vel : Vector3d := { x := odom.linear.x, y := odom.linear.y, z := odom.linear.z }
  let st1 := if odom.position.z > double_0_1 ∧ E.norm vel > double_0_1
    then nodeStatus.set i "on_air" else nodeStatus
  if odom.position.z < double_0_1 ∧ E.norm vel < double_0_1
    then st1.set i "on_ground" else st1

/-- The loop "Update the status". -/
def updateStatus (E : Ext) (nodeOdom : List OdomMsg) (N : Nat) (nodeStatus : List String) :
    List String :=
  (List.range N).foldl (statusStep E nodeOdom) nodeStatus

/-- The point published for neighbour `j`. -/
def odomPoint (nodeOdom : List OdomMsg) (j : Nat) : PointOdom :=
  let o := nodeOdom.getD j default
  { intensity := j, t := o.stamp,
    x := o.position.x, y := o.position.y, z := o.position.z,
    qx := o.orientation.x, qy := o.orientation.y, qz := o.orientation.z, qw := o.orientation.w,
    vx := o.linear.x, vy := o.linear.y, vz := o.linear.z,
    ax := o.angular.x, ay := o.angular.y, az := o.angular.z }

/-- The neighbour odometry cloud sent to node `i`: every alive `j` with
`linkMat(i, j) < 0.0` false. -/
def nbrOdomCloud (s : State) (i : Nat) : List PointOdom :=
  ((List.range s.Nnodes).filter (fun j =>
      !(s.nodeAlive.getD j false == false || decide (s.linkMat.coeff i j < 0)))).map
    (odomPoint s.nodeOdom)

/-- The initialisation done on the first report (`firstshot`). -/
def firstShot (s : State) (msg : PPComTopology) : State :=
  let N := msg.node_id.length
  { firstshot := false, Nnodes := N, nodeName := msg.node_id, nodeRole := msg.node_role,
    nodeOdom := msg.node_odom, nodeStatus := List.replicate N "on_ground",
    nodeAlive := List.replicate N true, linkMat := MatrixXd.negOnes N N,
    kfPose := s.kfPose ++ List.replicate N [], kfCloud := s.kfCloud ++ List.replicate N [] }

/-- PPComCallback: `none` when the assertion `nodeOdom.size() == Nnodes` fails. The
visualisation marker is not modelled. -/
def PPComCallback (E : Ext) (s : State) (msg : PPComTopology) :
    Option (State × List Event) :=
  let s1 := if s.firstshot = true then firstShot s msg else s
  let s2 : State := { s1 with nodeOdom := msg.node_odom }
  if s2.nodeOdom.length ≠ s2.Nnodes then none
  else
    let s3 : State :=
      { s2 with linkMat := updateDistance msg.range s2.Nnodes s2.linkMat,
                nodeStatus := updateStatus E s2.nodeOdom s2.Nnodes s2.nodeStatus }
    some (s3, Event.ppcomDoAPub msg s3.nodeAlive ::
      (List.range s3.Nnodes).map (fun i => Event.nbrOdomPub i (nbrOdomCloud s3 i) msg.stamp))

/-! ## Runs -/

/-- One delivery to the node: a contact batch, a topology report, or a synchronised
odometry and cloud pair for node `idx`. -/
inductive Input where
  | contacts (msg : List Contact)
  | ppcom (msg : PPComTopology)
  | odomCloud (odomMsg : OdomMsg) (cloudMsg : CloudMsg) (idx : Nat)

/-- The callback that handles an input. -/
def step (E : Ext) (P : Params) (s : State) : Input → Option (State × List Event)
  | Input.contacts msg => some (ContactCallback s msg)
  | Input.ppcom msg => PPComCallback E s msg
  | Input.odomCloud odomMsg cloudMsg idx => OdomCloudCallback E P s odomMsg cloudMsg idx

/-- The state after a sequence of inputs handled one after the other; `none` if one of
them does not complete. -/
def run (E : Ext) (P : Params) : State → List Input → Option State
  | s, [] => some s
  | s, x :: xs =>
    match step E P s x with
    | none => none
    | some r => run E P r.1 xs

/-! ## ContactCallback in closed form -/

/-- The test under which the inner loop body acts on a node. -/
def hit (s : State) (c : Contact) (k : Nat) : Bool :=
  !decide (s.nodeRole.getD k "" = "manager") && collides s c k

/-- The effect of one inner loop body on the alive flags. -/
def kill (s : State) (c : Contact) (alive : List Bool) (k : Nat) : List Bool :=
  if hit s c k then alive.set k false else alive

/-- The stop call made by one inner loop body. -/
def calls (s : State) (c : Contact) (k : Nat) : List Event :=
  if hit s c k then
    [Event.serviceCall (stopService (s.nodeName.getD k "")) (stopMessage (s.nodeName.getD k ""))]
  else []

/-- The alive flags after a batch. -/
def aliveAfter (s : State) (msg : List Contact) : List Bool :=
  if s.Nnodes = 0 then s.nodeAlive
  else msg.foldl (fun a c => (List.range s.Nnodes).foldl (kill s c) a) s.nodeAlive

/-- The stop calls of a batch. -/
def callsOf (s : State) (msg : List Contact) : List Event :=
  msg.flatMap (fun c => (List.range s.Nnodes).flatMap (calls s c))

/-- Whether an emitted message is a call of the stop service of the node called `name`. -/
def addressedTo (name : String) : Event → Bool
  | Event.serviceCall service _ => decide (service = stopService name)
  | _ => false

/-- Number of stop calls addressed to the node called `name`. -/
def stopCallsTo (name : String) (evs : List Event) : Nat := evs.countP (addressedTo name)

/-! ## Valid reports -/

/-- A report is valid for a fleet of N nodes when it carries N odometry messages and the
N(N-1)/2 ranges of the upper triangle. -/
def PPComTopology.valid (N : Nat) (msg : PPComTopology) : Prop :=
  msg.node_odom.length = N ∧ msg.range.length = N * (N - 1) / 2

/-! ## Concrete inputs -/

/-- Squared norm of a vector, without rounding. -/
def Vector3d.squaredNorm (v : Vector3d) : ℚ := v.x ^ 2 + v.y ^ 2 + v.z ^ 2

/-- Square root of a rational that is not negative, rounded down to a multiple of the
inverse of its denominator; exact when the root is rational. -/
def sqrtDown (q : ℚ) : ℚ := (Nat.sqrt (q.num.toNat * q.den) : ℚ) / q.den

/-- External functions that leave the clouds as they are, report a zero angle and compute
without floating-point rounding: the squared distance and the product are exact, the norm
is the root of the squared norm rounded down by `sqrtDown`. On the inputs below the exact
results are floating-point numbers, so the rounded functions give the same there. -/
def Ext.plain : Ext :=
  { uniformSampling := fun _ c => c, transformPointCloud := fun _ _ c => c,
    angleDiff := fun _ _ => 0, squaredDistance := sqDist, roundDouble := fun q => q,
    norm := fun v => sqrtDown v.squaredNorm }

/-- Two alive nodes after a report whose only range is -0.5. -/
def twoNodesHalf : State :=
  { firstshot := false, Nnodes := 2, nodeName := ["uav1", "uav2"],
    nodeRole := ["explorer", "explorer"], nodeOdom := [default, default],
    nodeStatus := ["on_air", "on_air"], nodeAlive := [true, true],
    linkMat := { rows := 2, cols := 2, coeff := fun a b => if a = b then -1 else -1 / 2 },
    kfPose := [[], []], kfCloud := [[], []] }

/-- One alive node uav1 in the air and a manager gcs on the ground, linked. -/
def airborne : State :=
  { firstshot := false, Nnodes := 2, nodeName := ["uav1", "gcs"],
    nodeRole := ["explorer", "manager"], nodeOdom := [default, default],
    nodeStatus := ["on_air", "on_ground"], nodeAlive := [true, true],
    linkMat := { rows := 2, cols := 2, coeff := fun a b => if a = b then -1 else 5 },
    kfPose := [[], []], kfCloud := [[], []] }

/-- The state `airborne` after uav1 has died. -/
def crashed : State := { airborne with nodeAlive := [false, true] }

/-- One contact of uav1 with a wall. -/
def wallHit : Contact :=
  { collision1 := "uav1::base_link::collision", collision2 := "wall::link::collision" }

/-- One contact of a rotor of uav1 with a wall. -/
def rotorHit : Contact :=
  { collision1 := "wall::link::collision", collision2 := "uav1::rotor_0::collision" }

/-- Odometry of a node hovering at height 2 with identity orientation, stamped 1.0. -/
def odomAtOne : OdomMsg :=
  { stamp := 1, position := { x := 0, y := 0, z := 2 },
    orientation := { w := 1, x := 0, y := 0, z := 0 },
    linear := { x := 0, y := 0, z := 0 }, angular := { x := 0, y := 0, z := 0 } }

/-- An empty scan stamped 0.995, five milliseconds before 1.0. -/
def cloudBefore : CloudMsg := { stamp := 199 / 200, points := [] }

/-- An empty scan stamped 1.0. -/
def cloudAtOne : CloudMsg := { stamp := 1, points := [] }

/-- A key pose at height 2 with identity orientation, stamped 0.0. -/
def poseAtZero : PointPose :=
  { x := 0, y := 0, z := 2, qx := 0, qy := 0, qz := 0, qw := 1, t := 0 }

/-- The state `airborne` once uav1 has stored the key pose `poseAtZero`. -/
def oneKeyframe : State := { airborne with kfPose := [[poseAtZero], []], kfCloud := [[[]], []] }

/-- The odometry `odomAtOne` stamped 2.0. -/
def odomAtTwo : OdomMsg := { odomAtOne with stamp := 2 }

/-- An empty scan stamped 2.0. -/
def cloudAtTwo : CloudMsg := { stamp := 2, points := [] }

/-- The odometry `odomAtOne` stamped 2.0 and turned about the vertical axis. -/
def odomTurned : OdomMsg :=
  { odomAtOne with stamp := 2, orientation := { w := 4981 / 5000, x := 0, y := 0, z := 109 / 1250 } }

/-- External functions that report an angle of 0 between equal orientations and of exactly
10 between different ones. -/
def Ext.tenDegrees : Ext :=
  { Ext.plain with angleDiff := fun a b => if a = b then 0 else 10 }

/-- A report of three nodes with ranges (0,1) = 5, (0,2) = -1 and (1,2) = 7. -/
def reportThree : PPComTopology :=
  { stamp := 1, node_id := ["gcs", "uav1", "uav2"],
    node_role := ["manager", "explorer", "explorer"],
    node_odom := [odomAtOne, odomAtOne, odomAtOne], range := [5, -1, 7] }

/-- A later report of the same three nodes in which every pair has lost its link. -/
def reportThreeDark : PPComTopology :=
  { reportThree with stamp := 2, range := [-1, -1, -1] }

/-- A report of the two nodes of `airborne`, linked at range 5. -/
def reportTwo : PPComTopology :=
  { stamp := 1, node_id := ["uav1", "gcs"], node_role := ["explorer", "manager"],
    node_odom := [odomAtOne, odomAtOne], range := [5] }

/-- A first report of the single node uav1. -/
def reportOne : PPComTopology :=
  { stamp := 1, node_id := ["uav1"], node_role := ["explorer"], node_odom := [odomAtOne],
    range := [] }

/-- The status that the body of the loop "Update the status" leaves for a node whose
status was `before`, given the odometry of the node. -/
def statusAfter (E : Ext) (odom : OdomMsg) (before : String) : String :=
  if odom.position.z < double_0_1
      ∧ E.norm { x := odom.linear.x, y := odom.linear.y, z := odom.linear.z } < double_0_1
    then "on_ground"
  else if odom.position.z > double_0_1
      ∧ E.norm { x := odom.linear.x, y := odom.linear.y, z := odom.linear.z } > double_0_1
    then "on_air"
  else before

/-- Odometry of a node at height 2 moving at speed 1 along x, stamped 1.0. -/
def odomFlying : OdomMsg := { odomAtOne with linear := { x := 1, y := 0, z := 0 } }

/-- A first report of two nodes: uav1 flying, gcs resting on the ground. -/
def reportFlying : PPComTopology :=
  { stamp := 1, node_id := ["uav1", "gcs"], node_role := ["explorer", "manager"],
    node_odom := [odomFlying, { odomAtOne with position := { x := 0, y := 0, z := 0 } }],
    range := [5] }

/-- Odometry of the node at height 2, ten metres along x from `odomAtOne`, stamped 3.0. -/
def odomFar : OdomMsg := { odomAtOne with stamp := 3, position := { x := 10, y := 0, z := 2 } }

/-- An empty scan stamped 3.0. -/
def cloudAtThree : CloudMsg := { stamp := 3, points := [] }

/-! # Theorems -/

/-! ## Dissemination filter -/

theorem mem_range_filter_forwardsTo (s : State) (i j : Nat) :
    j ∈ (List.range s.Nnodes).filter (forwardsTo s i) ↔
      j < s.Nnodes ∧ j ≠ i ∧ s.nodeAlive.getD j false = true ∧ 0 ≤ s.linkMat.coeff i j := by
  simp only [List.mem_filter, List.mem_range, forwardsTo]
  cases h : s.nodeAlive.getD j false <;> simp [not_lt]

/-- C1 (as amended): UpdateSLAMDatabase for node i forwards the downsampled cloud, stamped
with the pose time, to node j exactly when j is below Nnodes, differs from i, is alive and
linkMat(i, j) is not negative. -/
theorem updateSLAMDatabase_forwards_iff (E : Ext) (P : Params) (s : State) (i : Nat)
    (pose : PointPose) (cloud : CloudXYZI) (j : Nat) (c : CloudXYZI) (t : ℚ) :
    Event.nbrKfCloudPub j c t ∈ (UpdateSLAMDatabase E P s i pose cloud).2 ↔
      (j < s.Nnodes ∧ j ≠ i ∧ s.nodeAlive.getD j false = true ∧ 0 ≤ s.linkMat.coeff i j)
        ∧ c = E.uniformSampling P.kf_voxsize cloud ∧ t = pose.t := by
  simp only [UpdateSLAMDatabase, List.mem_append, List.mem_cons, List.mem_map,
    List.mem_singleton, List.not_mem_nil, or_false, false_or, reduceCtorEq,
    Event.nbrKfCloudPub.injEq]
  constructor
  · rintro ⟨k, hk, rfl, rfl, rfl⟩
    exact ⟨(mem_range_filter_forwardsTo s i k).1 hk, rfl, rfl⟩
  · rintro ⟨hj, rfl, rfl⟩
    exact ⟨j, (mem_range_filter_forwardsTo s i j).2 hj, rfl, rfl, rfl⟩

/-- C1 (counterexample): node 1 is alive, is not node 0 and has link value -0.5, which is
not the sentinel -1, and an admission at node 0 forwards nothing to node 1. -/
theorem updateSLAMDatabase_negative_link_not_forwarded :
    (1 : Nat) ≠ 0 ∧ twoNodesHalf.nodeAlive.getD 1 false = true
      ∧ twoNodesHalf.linkMat.coeff 0 1 = -1 / 2 ∧ twoNodesHalf.linkMat.coeff 0 1 ≠ -1
      ∧ ∀ c t, Event.nbrKfCloudPub 1 c t ∉
          (UpdateSLAMDatabase Ext.plain Params.default twoNodesHalf 0 default []).2 := by
  refine ⟨by decide, by simp [twoNodesHalf], by simp [twoNodesHalf],
    by simp [twoNodesHalf]; norm_num, ?_⟩
  intro c t h
  simp only [UpdateSLAMDatabase, List.mem_append, List.mem_cons, List.mem_map,
    List.not_mem_nil, or_false, false_or, reduceCtorEq, Event.nbrKfCloudPub.injEq] at h
  obtain ⟨k, hk, rfl, -⟩ := h
  have h0 := ((mem_range_filter_forwardsTo twoNodesHalf 0 1).1 hk).2.2.2
  simp [twoNodesHalf] at h0
  norm_num at h0

/-! ## ContactCallback: what the loops compute -/

theorem contactNode_eq (s : State) (c : Contact) (a : List Bool) (ev : List Event) (k : Nat) :
    contactNode c ({ s with nodeAlive := a }, ev) k
      = ({ s with nodeAlive := kill s c a k }, ev ++ calls s c k) := by
  unfold contactNode kill calls hit
  by_cases hm : s.nodeRole.getD k "" = "manager"
  · simp only [hm, ↓reduceIte, decide_True, Bool.not_true, Bool.false_and, Bool.false_eq_true,
      List.append_nil]
  · cases hc : collides s c k
    · have hc1 : collides { s with nodeAlive := a } c k = false := hc
      simp only [hm, hc, hc1, ↓reduceIte, decide_False, Bool.not_false, Bool.true_and,
        Bool.false_eq_true, List.append_nil]
    · have hc1 : collides { s with nodeAlive := a } c k = true := hc
      simp only [hm, hc, hc1, ↓reduceIte, decide_False, Bool.not_false, Bool.true_and]

theorem foldl_contactNode_eq (s : State) (c : Contact) (ks : List Nat) :
    ∀ (a : List Bool) (ev : List Event),
      ks.foldl (contactNode c) ({ s with nodeAlive := a }, ev)
        = ({ s with nodeAlive := ks.foldl (kill s c) a }, ev ++ ks.flatMap (calls s c)) := by
  induction ks with
  | nil => intro a ev; simp
  | cons k ks ih =>
    intro a ev
    simp only [List.foldl_cons, contactNode_eq, ih, List.flatMap_cons, List.append_assoc]

theorem contactOne_eq (s : State) (c : Contact) (a : List Bool) (ev : List Event) :
    contactOne ({ s with nodeAlive := a }, ev) c
      = ({ s with nodeAlive := (List.range s.Nnodes).foldl (kill s c) a },
          ev ++ (List.range s.Nnodes).flatMap (calls s c)) := by
  unfold contactOne
  exact foldl_contactNode_eq s c (List.range s.Nnodes) a ev

theorem foldl_contactOne_eq (s : State) (msg : List Contact) :
    ∀ (a : List Bool) (ev : List Event),
      msg.foldl contactOne ({ s with nodeAlive := a }, ev)
        = ({ s with nodeAlive :=
              msg.foldl (fun a c => (List.range s.Nnodes).foldl (kill s c) a) a },
            ev ++ msg.flatMap (fun c => (List.range s.Nnodes).flatMap (calls s c))) := by
  induction msg with
  | nil => intro a ev; simp
  | cons c cs ih =>
    intro a ev
    simp only [List.foldl_cons, contactOne_eq, ih, List.flatMap_cons, List.append_assoc]

theorem contactCallback_eq (s : State) (msg : List Contact) :
    ContactCallback s msg = ({ s with nodeAlive := aliveAfter s msg }, callsOf s msg) := by
  unfold ContactCallback aliveAfter
  by_cases h0 : s.Nnodes = 0
  · have hc : callsOf s msg = [] := by
      unfold callsOf
      rw [h0]
      simp
    rw [if_pos h0, if_pos h0, hc]
  · rw [if_neg h0, if_neg h0]
    have := foldl_contactOne_eq s msg s.nodeAlive []
    simpa [callsOf] using this

theorem stopService_injective (a b : String) (h : stopService a = stopService b) : a = b := by
  unfold stopService at h
  have h1 := congrArg String.data h
  simp only [String.data_append] at h1
  have h2 := List.append_cancel_right h1
  have h3 := List.append_cancel_left h2
  exact String.ext h3

theorem kill_getElem? (s : State) (c : Contact) (a : List Bool) (k i : Nat) :
    (kill s c a k)[i]? =
      if k = i ∧ hit s c i = true then a[i]?.map (fun _ => false) else a[i]? := by
  unfold kill
  by_cases hk : k = i
  · subst hk
    cases hh : hit s c k
    · simp
    · simp only [↓reduceIte, List.getElem?_set, and_self]
      by_cases hl : k < a.length
      · simp [hl]
      · simp [hl, List.getElem?_eq_none (not_lt.1 hl)]
  · cases hh : hit s c k
    · simp [hk]
    · simp [hk, List.getElem?_set]

theorem foldl_kill_getElem? (s : State) (c : Contact) (i : Nat) (ks : List Nat) :
    ∀ a : List Bool, (ks.foldl (kill s c) a)[i]? =
      if i ∈ ks ∧ hit s c i = true then a[i]?.map (fun _ => false) else a[i]? := by
  induction ks with
  | nil => intro a; simp
  | cons k ks ih =>
    intro a
    rw [List.foldl_cons, ih, kill_getElem?]
    by_cases hh : hit s c i = true
    · by_cases hk : k = i
      · by_cases hm : i ∈ ks
        · simp [hh, hk, hm, Option.map_map]
        · simp [hh, hk, hm]
      · by_cases hm : i ∈ ks
        · simp [hh, hk, hm]
        · simp [hh, hk, hm, Ne.symm hk]
    · simp [hh]

theorem foldl_foldl_kill_getElem? (s : State) (N i : Nat) (msg : List Contact) :
    ∀ a : List Bool,
      (msg.foldl (fun a c => (List.range N).foldl (kill s c) a) a)[i]? =
        if i < N ∧ ∃ c ∈ msg, hit s c i = true then a[i]?.map (fun _ => false) else a[i]? := by
  induction msg with
  | nil => intro a; simp
  | cons c cs ih =>
    intro a
    rw [List.foldl_cons, ih, foldl_kill_getElem?]
    by_cases hN : i < N
    · by_cases hh : hit s c i = true
      · by_cases hm : ∃ c ∈ cs, hit s c i = true
        · simp [hN, hh, hm, Option.map_map]
        · simp [hN, hh, hm]
      · by_cases hm : ∃ c ∈ cs, hit s c i = true
        · simp [hN, hh, hm]
        · simp [hN, hh, hm]
    · simp [hN]

theorem aliveAfter_getElem? (s : State) (msg : List Contact) (i : Nat) :
    (aliveAfter s msg)[i]? =
      if i < s.Nnodes ∧ ∃ c ∈ msg, hit s c i = true then s.nodeAlive[i]?.map (fun _ => false)
      else s.nodeAlive[i]? := by
  unfold aliveAfter
  by_cases h0 : s.Nnodes = 0
  · simp [h0]
  · rw [if_neg h0]
    exact foldl_foldl_kill_getElem? s s.Nnodes i msg s.nodeAlive

theorem countP_calls (s : State) (c : Contact) (name : String) (k : Nat) :
    (calls s c k).countP (addressedTo name) =
      if hit s c k = true ∧ s.nodeName.getD k "" = name then 1 else 0 := by
  unfold calls
  cases hh : hit s c k
  · simp
  · by_cases hn : s.nodeName.getD k "" = name
    · simp [addressedTo, hn, -List.getD_eq_getElem?_getD]
    · have : stopService (s.nodeName.getD k "") ≠ stopService name :=
        fun h => hn (stopService_injective _ _ h)
      simp [addressedTo, hn, this, -List.getD_eq_getElem?_getD]

theorem getD_eq_getD_iff (l : List String) (hl : l.Nodup) (k i : Nat) (hk : k < l.length)
    (hi : i < l.length) : l.getD k "" = l.getD i "" ↔ k = i := by
  constructor
  · intro h
    rw [List.getD_eq_getElem l "" hk, List.getD_eq_getElem l "" hi] at h
    exact (List.Nodup.getElem_inj_iff hl).1 h
  · intro h
    rw [h]

theorem countP_calls_range (s : State) (c : Contact) (i : Nat) (hi : i < s.nodeName.length)
    (hnd : s.nodeName.Nodup) :
    ∀ n, n ≤ s.nodeName.length →
      ((List.range n).flatMap (calls s c)).countP (addressedTo (s.nodeName.getD i "")) =
        if i < n ∧ hit s c i = true then 1 else 0 := by
  intro n
  induction n with
  | zero => intro _; simp
  | succ n ih =>
    intro hn
    rw [List.range_succ, List.flatMap_append, List.countP_append, ih (Nat.le_of_succ_le hn)]
    simp only [List.flatMap_cons, List.flatMap_nil, List.append_nil, countP_calls]
    simp only [getD_eq_getD_iff s.nodeName hnd n i (Nat.lt_of_succ_le hn) hi]
    by_cases hh : hit s c i = true
    · by_cases h1 : n = i
      · subst h1
        simp [hh]
      · by_cases h2 : i < n
        · have : i < n + 1 := Nat.lt_succ_of_lt h2
          simp [hh, h1, h2, this]
        · have : ¬ i < n + 1 := by omega
          simp [hh, h1, h2, this]
    · by_cases h1 : n = i
      · subst h1
        simp [hh]
      · simp [hh, h1]

theorem stopCallsTo_callsOf (s : State) (msg : List Contact) (i : Nat) (hi : i < s.Nnodes)
    (hlen : s.nodeName.length = s.Nnodes) (hnd : s.nodeName.Nodup) :
    stopCallsTo (s.nodeName.getD i "") (callsOf s msg) = msg.countP (fun c => hit s c i) := by
  unfold stopCallsTo callsOf
  induction msg with
  | nil => simp
  | cons c cs ih =>
    rw [List.flatMap_cons, List.countP_append, ih,
      countP_calls_range s c i (hlen ▸ hi) hnd s.Nnodes (le_of_eq hlen.symm), List.countP_cons]
    simp only [hi, true_and]
    omega

theorem hit_iff (s : State) (c : Contact) (i : Nat) :
    hit s c i = true ↔
      s.nodeRole.getD i "" ≠ "manager" ∧ touches (s.nodeName.getD i "") c = true
        ∧ s.nodeStatus.getD i "" = "on_air" := by
  simp [hit, collides, -List.getD_eq_getElem?_getD]

/-! ## Collisions -/

/-- C3 (as amended): a node that is dead before a contact batch is dead after it, and the
batch leaves the node count, names, roles, statuses and key frames as they were; the stop
calls of the batch do not depend on the alive flags, so a dead node is called again. -/
theorem contactCallback_dead_stays_dead (s : State) (msg : List Contact) (i : Nat)
    (h : s.nodeAlive[i]? = some false) :
    (ContactCallback s msg).1.nodeAlive[i]? = some false
      ∧ (ContactCallback s msg).1.Nnodes = s.Nnodes
      ∧ (ContactCallback s msg).1.nodeName = s.nodeName
      ∧ (ContactCallback s msg).1.nodeRole = s.nodeRole
      ∧ (ContactCallback s msg).1.nodeStatus = s.nodeStatus
      ∧ (ContactCallback s msg).1.kfPose = s.kfPose
      ∧ ∀ a : List Bool,
          (ContactCallback { s with nodeAlive := a } msg).2 = (ContactCallback s msg).2 := by
  refine ⟨?_, ?_, ?_, ?_, ?_, ?_, ?_⟩
  · rw [contactCallback_eq]
    show (aliveAfter s msg)[i]? = some false
    rw [aliveAfter_getElem?, h]
    split <;> rfl
  · rw [contactCallback_eq]
  · rw [contactCallback_eq]
  · rw [contactCallback_eq]
  · rw [contactCallback_eq]
  · rw [contactCallback_eq]
  · intro a
    rw [contactCallback_eq, contactCallback_eq]
    rfl

/-- C3 (witness): the dead node uav1 of `crashed` and one contact with a wall. -/
theorem contactCallback_dead_stays_dead_witness :
    crashed.nodeAlive[0]? = some false
      ∧ (ContactCallback crashed [wallHit]).1.nodeAlive[0]? = some false :=
  ⟨by decide, (contactCallback_dead_stays_dead crashed [wallHit] 0 (by decide)).1⟩

/-- C3 (counterexample): uav1 is dead and on_air, the batch holds one contact of uav1 with
a wall, and one stop call addressed to uav1 is issued. -/
theorem contactCallback_dead_called_again :
    crashed.nodeAlive[0]? = some false ∧ crashed.nodeName.getD 0 "" = "uav1"
      ∧ (ContactCallback crashed [wallHit]).2
          = [Event.serviceCall "/uav1/stop" (stopMessage "uav1")]
      ∧ stopCallsTo "uav1" (ContactCallback crashed [wallHit]).2 = 1 := by
  decide

/-- C4 (as amended): a registered node that is alive, not a manager and on_air, and that a
contact of the batch touches, is dead after the batch, and the number of stop calls
addressed to it equals the number of contacts of the batch that touch it, which is at
least one. Names are distinct and as many as Nnodes. -/
theorem contactCallback_kills_and_calls (s : State) (msg : List Contact) (i : Nat)
    (hi : i < s.Nnodes) (hlen : s.nodeName.length = s.Nnodes) (hnd : s.nodeName.Nodup)
    (halive : s.nodeAlive[i]? = some true) (hrole : s.nodeRole.getD i "" ≠ "manager")
    (hair : s.nodeStatus.getD i "" = "on_air")
    (hc : ∃ c ∈ msg, touches (s.nodeName.getD i "") c = true) :
    (ContactCallback s msg).1.nodeAlive[i]? = some false
      ∧ stopCallsTo (s.nodeName.getD i "") (ContactCallback s msg).2
          = msg.countP (touches (s.nodeName.getD i ""))
      ∧ 1 ≤ msg.countP (touches (s.nodeName.getD i "")) := by
  have hhit : ∀ c, hit s c i = touches (s.nodeName.getD i "") c := by
    intro c
    cases ht : touches (s.nodeName.getD i "") c
    · cases hh : hit s c i
      · rfl
      · rw [hit_iff] at hh
        rw [hh.2.1] at ht
        exact absurd ht (by decide)
    · exact (hit_iff s c i).2 ⟨hrole, ht, hair⟩
  refine ⟨?_, ?_, ?_⟩
  · rw [contactCallback_eq]
    show (aliveAfter s msg)[i]? = some false
    obtain ⟨c, hcm, hct⟩ := hc
    have : i < s.Nnodes ∧ ∃ c ∈ msg, hit s c i = true := ⟨hi, c, hcm, by rw [hhit]; exact hct⟩
    rw [aliveAfter_getElem?, if_pos this, halive]
    rfl
  · rw [contactCallback_eq]
    show stopCallsTo (s.nodeName.getD i "") (callsOf s msg) = _
    rw [stopCallsTo_callsOf s msg i hi hlen hnd]
    congr 1
    funext c
    exact hhit c
  · obtain ⟨c, hcm, hct⟩ := hc
    exact List.countP_pos_iff.2 ⟨c, hcm, hct⟩

/-- C4 (witness): uav1 of `airborne` and one contact with a wall: dead after it, one call. -/
theorem contactCallback_kills_and_calls_witness :
    (ContactCallback airborne [wallHit]).1.nodeAlive[0]? = some false
      ∧ stopCallsTo "uav1" (ContactCallback airborne [wallHit]).2 = 1 := by
  have h := contactCallback_kills_and_calls airborne [wallHit] 0 (by decide) (by decide)
    (by decide) (by decide) (by decide) (by decide) ⟨wallHit, by decide, by decide⟩
  exact ⟨h.1, h.2.1.trans (by decide)⟩

/-- C4 (counterexample): uav1 is alive, not a manager and on_air, the batch holds two
contacts of uav1 with a wall, and two stop calls addressed to uav1 are issued. -/
theorem contactCallback_two_contacts_two_calls :
    airborne.nodeAlive[0]? = some true ∧ airborne.nodeRole.getD 0 "" ≠ "manager"
      ∧ airborne.nodeStatus.getD 0 "" = "on_air" ∧ airborne.nodeName.getD 0 "" = "uav1"
      ∧ touches "uav1" wallHit = true ∧ touches "uav1" rotorHit = true
      ∧ (ContactCallback airborne [wallHit, rotorHit]).1.nodeAlive[0]? = some false
      ∧ stopCallsTo "uav1" (ContactCallback airborne [wallHit, rotorHit]).2 = 2 := by
  decide

/-- C9: if a contact batch turns a node from alive to dead, or issues a stop call addressed
to a registered node (names distinct and as many as Nnodes), then that node is not a
manager, its status is on_air, and some contact of the batch has the node name in one
collision string and no "ground_plane" in the other. -/
theorem contactCallback_death_needs (s : State) (msg : List Contact) (i : Nat)
    (h : (s.nodeAlive[i]? = some true ∧ (ContactCallback s msg).1.nodeAlive[i]? = some false)
      ∨ (i < s.Nnodes ∧ s.nodeName.length = s.Nnodes ∧ s.nodeName.Nodup
          ∧ 0 < stopCallsTo (s.nodeName.getD i "") (ContactCallback s msg).2)) :
    s.nodeRole.getD i "" ≠ "manager" ∧ s.nodeStatus.getD i "" = "on_air"
      ∧ ∃ c ∈ msg, touches (s.nodeName.getD i "") c = true := by
  have key : (∃ c ∈ msg, hit s c i = true) →
      s.nodeRole.getD i "" ≠ "manager" ∧ s.nodeStatus.getD i "" = "on_air"
        ∧ ∃ c ∈ msg, touches (s.nodeName.getD i "") c = true := by
    rintro ⟨c, hcm, hh⟩
    rw [hit_iff] at hh
    exact ⟨hh.1, hh.2.2, c, hcm, hh.2.1⟩
  rcases h with ⟨h1, h2⟩ | ⟨hi, hlen, hnd, hpos⟩
  · rw [contactCallback_eq] at h2
    have h3 : (aliveAfter s msg)[i]? = some false := h2
    rw [aliveAfter_getElem?] at h3
    by_cases hcnd : i < s.Nnodes ∧ ∃ c ∈ msg, hit s c i = true
    · exact key hcnd.2
    · rw [if_neg hcnd, h1] at h3
      exact absurd h3 (by decide)
  · rw [contactCallback_eq] at hpos
    have h3 : 0 < stopCallsTo (s.nodeName.getD i "") (callsOf s msg) := hpos
    rw [stopCallsTo_callsOf s msg i hi hlen hnd, List.countP_pos_iff] at h3
    obtain ⟨c, hcm, hh⟩ := h3
    exact key ⟨c, hcm, hh⟩

/-- C9 (witness): uav1 of `airborne` dies in a batch of two contacts with a wall. -/
theorem contactCallback_death_needs_witness :
    (airborne.nodeAlive[0]? = some true
        ∧ (ContactCallback airborne [rotorHit, wallHit]).1.nodeAlive[0]? = some false)
      ∧ airborne.nodeRole.getD 0 "" ≠ "manager" ∧ airborne.nodeStatus.getD 0 "" = "on_air"
      ∧ ∃ c ∈ [rotorHit, wallHit], touches (airborne.nodeName.getD 0 "") c = true :=
  ⟨by decide, contactCallback_death_needs airborne [rotorHit, wallHit] 0 (Or.inl (by decide))⟩

/-! ## Time alignment -/

/-- C2 (the code at the failing input): the pose is stamped 1.0 and the scan 0.995, five
milliseconds apart, node 0 is alive and has no key frame, and OdomCloudCallback stores
one. -/
theorem odomCloudCallback_late_pose_admitted :
    abs (cloudBefore.stamp - odomAtOne.stamp) > 1 / 1000
      ∧ (airborne.kfPose.getD 0 []).length = 0
      ∧ ∃ r, OdomCloudCallback Ext.plain Params.default airborne odomAtOne cloudBefore 0 = some r
          ∧ (r.1.kfPose.getD 0 []).length = 1 := by
  refine ⟨by norm_num [cloudBefore, odomAtOne, lt_abs], by decide, ?_⟩
  have ht : ¬ (cloudBefore.stamp - odomAtOne.stamp > 1 / 1000) := by
    norm_num [cloudBefore, odomAtOne]
  have ha : ¬ (airborne.nodeAlive.getD 0 false = false) := by decide
  have hk : (airborne.kfPose.getD 0 []).getLast? = none := by decide
  unfold OdomCloudCallback
  simp only [if_neg ht, if_neg ha, hk]
  exact ⟨_, rfl, by simp [UpdateSLAMDatabase, airborne]⟩

/-! ## Nearest key frames -/

theorem mem_knnCandidates (E : Ext) (cloud : List PointPose) (q : PointPose) (x : Nat × ℚ) :
    x ∈ knnCandidates E cloud q ↔
      x.1 < cloud.length ∧ x.2 = E.squaredDistance (cloud.getD x.1 default) q := by
  unfold knnCandidates
  constructor
  · intro h
    obtain ⟨i, hi, rfl⟩ := List.mem_map.1 h
    exact ⟨List.mem_range.1 hi, rfl⟩
  · rintro ⟨h1, h2⟩
    exact List.mem_map.2 ⟨x.1, List.mem_range.2 h1, by rw [← h2]⟩

theorem nearestKSearch_front (E : Ext) (cloud : List PointPose) (q : PointPose) (k : Nat) (front : ℚ)
    (h : (nearestKSearch E cloud q k).2.head? = some front) :
    (∃ p ∈ cloud, E.squaredDistance p q = front) ∧ ∀ p ∈ cloud, front ≤ E.squaredDistance p q := by
  unfold nearestKSearch at h
  simp only [List.head?_map, List.head?_take] at h
  have hs : List.Sorted nearer ((knnCandidates E cloud q).insertionSort nearer) :=
    List.sorted_insertionSort nearer _
  have hp : ((knnCandidates E cloud q).insertionSort nearer).Perm (knnCandidates E cloud q) :=
    List.perm_insertionSort nearer _
  cases hl : (knnCandidates E cloud q).insertionSort nearer with
  | nil => rw [hl] at h; split at h <;> simp at h
  | cons x xs =>
    rw [hl] at h hs hp
    have hx : x.2 = front := by
      split at h
      · simp at h
      · simpa using h
    have hxm : x ∈ knnCandidates E cloud q := hp.mem_iff.1 (List.mem_cons_self x xs)
    rw [mem_knnCandidates] at hxm
    constructor
    · refine ⟨cloud.getD x.1 default, ?_, ?_⟩
      · rw [List.getD_eq_getElem cloud default hxm.1]
        exact List.getElem_mem _
      · rw [← hx, hxm.2]
    · intro p hpm
      obtain ⟨i, hi, rfl⟩ := List.getElem_of_mem hpm
      have hm : (i, E.squaredDistance cloud[i] q) ∈ x :: xs := by
        apply hp.mem_iff.2
        rw [mem_knnCandidates]
        exact ⟨hi, by rw [List.getD_eq_getElem cloud default hi]⟩
      rcases List.mem_cons.1 hm with h1 | h1
      · rw [← hx, ← h1]
      · have := List.rel_of_sorted_cons hs _ h1
        rw [← hx]
        exact this

/-- The search returns `min k n` positions of the cloud, and no point left out is nearer
than a point returned. -/
theorem nearestKSearch_nearest (E : Ext) (cloud : List PointPose) (q : PointPose) (k : Nat) :
    (nearestKSearch E cloud q k).1.length = min k cloud.length
      ∧ (∀ j ∈ (nearestKSearch E cloud q k).1, j < cloud.length)
      ∧ ∀ j ∈ (nearestKSearch E cloud q k).1, ∀ i, i < cloud.length →
          i ∉ (nearestKSearch E cloud q k).1 →
          E.squaredDistance (cloud.getD j default) q ≤ E.squaredDistance (cloud.getD i default) q := by
  have hs : List.Sorted nearer ((knnCandidates E cloud q).insertionSort nearer) :=
    List.sorted_insertionSort nearer _
  have hp : ((knnCandidates E cloud q).insertionSort nearer).Perm (knnCandidates E cloud q) :=
    List.perm_insertionSort nearer _
  have hsplit := List.take_append_drop k ((knnCandidates E cloud q).insertionSort nearer)
  refine ⟨?_, ?_, ?_⟩
  · simp [nearestKSearch, List.length_insertionSort, knnCandidates]
  · intro j hj
    simp only [nearestKSearch, List.mem_map] at hj
    obtain ⟨x, hx, rfl⟩ := hj
    exact ((mem_knnCandidates E cloud q x).1 (hp.mem_iff.1 (List.mem_of_mem_take hx))).1
  · intro j hj i hi hni
    simp only [nearestKSearch, List.mem_map] at hj hni
    obtain ⟨x, hx, rfl⟩ := hj
    have hxc := (mem_knnCandidates E cloud q x).1 (hp.mem_iff.1 (List.mem_of_mem_take hx))
    have hy : (i, E.squaredDistance (cloud.getD i default) q) ∈
        (knnCandidates E cloud q).insertionSort nearer :=
      hp.mem_iff.2 ((mem_knnCandidates E cloud q _).2 ⟨hi, rfl⟩)
    rw [← hsplit, List.mem_append] at hy
    rcases hy with hy | hy
    · exact absurd ⟨_, hy, rfl⟩ hni
    · have hpw : List.Pairwise nearer
          (List.take k ((knnCandidates E cloud q).insertionSort nearer)
            ++ List.drop k ((knnCandidates E cloud q).insertionSort nearer)) := by
        rw [hsplit]
        exact hs
      have := (List.pairwise_append.1 hpw).2.2 x hx _ hy
      rw [← hxc.2]
      exact this

theorem nearestKSearch_front_gt (E : Ext) (cloud : List PointPose) (q : PointPose) (k : Nat)
    (front c : ℚ) (h : (nearestKSearch E cloud q k).2.head? = some front) :
    front > c ↔ ∀ p ∈ cloud, E.squaredDistance p q > c := by
  obtain ⟨⟨p, hp, hpe⟩, hmin⟩ := nearestKSearch_front E cloud q k front h
  constructor
  · intro hc p hp
    exact lt_of_lt_of_le hc (hmin p hp)
  · intro hall
    rw [← hpe]
    exact hall p hp

theorem nearestKSearch_head_isSome (E : Ext) (cloud : List PointPose) (q : PointPose) (k : Nat)
    (hk : 0 < k) (hc : cloud ≠ []) : ((nearestKSearch E cloud q k).2.head?).isSome = true := by
  unfold nearestKSearch
  have hlen : ((knnCandidates E cloud q).insertionSort nearer).length = cloud.length := by
    rw [List.length_insertionSort]
    simp [knnCandidates]
  have hpos : 0 < cloud.length := List.length_pos.2 hc
  cases hl : (knnCandidates E cloud q).insertionSort nearer with
  | nil => rw [hl] at hlen; simp at hlen; omega
  | cons x xs =>
    cases k with
    | zero => omega
    | succ k => simp

/-! ## OdomCloudCallback: admission -/

theorem farAngle_iff (E : Ext) (P : Params) (kf : List PointPose) (Qb : Quaternd)
    (knn_idx : List Nat) :
    farAngle E P kf Qb knn_idx = true ↔
      ∀ j ∈ knn_idx, P.kf_min_ang ≤ abs (E.angleDiff (kf.getD j default).quat Qb) := by
  simp [farAngle, List.all_eq_true, -List.getD_eq_getElem?_getD]

theorem updateSLAMDatabase_state (E : Ext) (P : Params) (s : State) (idx : Nat)
    (pose : PointPose) (cloud : CloudXYZI) :
    (UpdateSLAMDatabase E P s idx pose cloud).1 =
      { s with kfPose := s.kfPose.set idx (s.kfPose.getD idx [] ++ [pose]),
               kfCloud := s.kfCloud.set idx
                 (s.kfCloud.getD idx [] ++ [E.uniformSampling P.kf_voxsize cloud]) } := rfl

/-- The pose that OdomCloudCallback stores for an odometry message. -/
theorem pose6D_ofOdom (odomMsg : OdomMsg) :
    (myTf.ofOdom odomMsg).Pose6D odomMsg.stamp =
      { x := odomMsg.position.x, y := odomMsg.position.y, z := odomMsg.position.z,
        qx := odomMsg.orientation.x, qy := odomMsg.orientation.y, qz := odomMsg.orientation.z,
        qw := odomMsg.orientation.w, t := odomMsg.stamp } := rfl

section branches

variable (E : Ext) (P : Params) (s : State) (odomMsg : OdomMsg) (cloudMsg : CloudMsg) (idx : Nat)

theorem odomCloudCallback_dead (ha : s.nodeAlive.getD idx false = false) :
    OdomCloudCallback E P s odomMsg cloudMsg idx = some (s, []) := by
  unfold OdomCloudCallback
  simp only [if_pos ha]

theorem odomCloudCallback_skew (ha : s.nodeAlive.getD idx false = true)
    (ht : cloudMsg.stamp - odomMsg.stamp > 1 / 1000) :
    OdomCloudCallback E P s odomMsg cloudMsg idx = some (s, []) := by
  unfold OdomCloudCallback
  have ha1 : ¬ (s.nodeAlive.getD idx false = false) := by rw [ha]; decide
  simp only [if_neg ha1, if_pos ht]

theorem odomCloudCallback_first (ha : s.nodeAlive.getD idx false = true)
    (ht : ¬ cloudMsg.stamp - odomMsg.stamp > 1 / 1000)
    (hk : (s.kfPose.getD idx []).getLast? = none) :
    OdomCloudCallback E P s odomMsg cloudMsg idx =
      some ((UpdateSLAMDatabase E P s idx ((myTf.ofOdom odomMsg).Pose6D odomMsg.stamp)
              (E.transformPointCloud (myTf.ofOdom odomMsg) P.tf_B_L cloudMsg.points)).1,
            [Event.cloudInWPub idx
                (E.transformPointCloud (myTf.ofOdom odomMsg) P.tf_B_L cloudMsg.points)
                cloudMsg.stamp]
              ++ (UpdateSLAMDatabase E P s idx ((myTf.ofOdom odomMsg).Pose6D odomMsg.stamp)
                (E.transformPointCloud (myTf.ofOdom odomMsg) P.tf_B_L cloudMsg.points)).2) := by
  unfold OdomCloudCallback
  have ha1 : ¬ (s.nodeAlive.getD idx false = false) := by rw [ha]; decide
  simp only [if_neg ha1, if_neg ht, hk]

theorem odomCloudCallback_early (back : PointPose) (ha : s.nodeAlive.getD idx false = true)
    (ht : ¬ cloudMsg.stamp - odomMsg.stamp > 1 / 1000)
    (hk : (s.kfPose.getD idx []).getLast? = some back)
    (hel : ¬ odomMsg.stamp - back.t > 1) :
    OdomCloudCallback E P s odomMsg cloudMsg idx =
      some (s, [Event.cloudInWPub idx
        (E.transformPointCloud (myTf.ofOdom odomMsg) P.tf_B_L cloudMsg.points)
        cloudMsg.stamp]) := by
  unfold OdomCloudCallback
  have ha1 : ¬ (s.nodeAlive.getD idx false = false) := by rw [ha]; decide
  simp only [if_neg ha1, if_neg ht, hk, if_neg hel]

theorem odomCloudCallback_negative_knn (back : PointPose)
    (ha : s.nodeAlive.getD idx false = true)
    (ht : ¬ cloudMsg.stamp - odomMsg.stamp > 1 / 1000)
    (hk : (s.kfPose.getD idx []).getLast? = some back)
    (hel : odomMsg.stamp - back.t > 1) (hneg : P.kf_knn_num < 0) :
    OdomCloudCallback E P s odomMsg cloudMsg idx = none := by
  unfold OdomCloudCallback
  have ha1 : ¬ (s.nodeAlive.getD idx false = false) := by rw [ha]; decide
  simp only [if_neg ha1, if_neg ht, hk, if_pos hel, if_pos hneg]

theorem odomCloudCallback_no_front (back : PointPose)
    (ha : s.nodeAlive.getD idx false = true)
    (ht : ¬ cloudMsg.stamp - odomMsg.stamp > 1 / 1000)
    (hk : (s.kfPose.getD idx []).getLast? = some back)
    (hel : odomMsg.stamp - back.t > 1) (hneg : ¬ P.kf_knn_num < 0)
    (hf : (nearestKSearch E (s.kfPose.getD idx []) ((myTf.ofOdom odomMsg).Pose6D odomMsg.stamp)
            P.kf_knn_num.toNat).2.head? = none) :
    OdomCloudCallback E P s odomMsg cloudMsg idx = none := by
  unfold OdomCloudCallback
  have ha1 : ¬ (s.nodeAlive.getD idx false = false) := by rw [ha]; decide
  simp only [if_neg ha1, if_neg ht, hk, if_pos hel, if_neg hneg, hf]

theorem odomCloudCallback_search (back : PointPose) (front : ℚ)
    (ha : s.nodeAlive.getD idx false = true)
    (ht : ¬ cloudMsg.stamp - odomMsg.stamp > 1 / 1000)
    (hk : (s.kfPose.getD idx []).getLast? = some back)
    (hel : odomMsg.stamp - back.t > 1) (hneg : ¬ P.kf_knn_num < 0)
    (hf : (nearestKSearch E (s.kfPose.getD idx []) ((myTf.ofOdom odomMsg).Pose6D odomMsg.stamp)
            P.kf_knn_num.toNat).2.head? = some front) :
    OdomCloudCallback E P s odomMsg cloudMsg idx =
      if (decide (front > E.roundDouble (P.kf_min_dis * P.kf_min_dis))
          || farAngle E P (s.kfPose.getD idx []) (myTf.ofOdom odomMsg).rot
              (nearestKSearch E (s.kfPose.getD idx [])
                ((myTf.ofOdom odomMsg).Pose6D odomMsg.stamp) P.kf_knn_num.toNat).1) = true
      then
        some ((UpdateSLAMDatabase E P s idx ((myTf.ofOdom odomMsg).Pose6D odomMsg.stamp)
                (E.transformPointCloud (myTf.ofOdom odomMsg) P.tf_B_L cloudMsg.points)).1,
              [Event.cloudInWPub idx
                  (E.transformPointCloud (myTf.ofOdom odomMsg) P.tf_B_L cloudMsg.points)
                  cloudMsg.stamp]
                ++ (UpdateSLAMDatabase E P s idx ((myTf.ofOdom odomMsg).Pose6D odomMsg.stamp)
                  (E.transformPointCloud (myTf.ofOdom odomMsg) P.tf_B_L cloudMsg.points)).2)
      else
        some (s, [Event.cloudInWPub idx
          (E.transformPointCloud (myTf.ofOdom odomMsg) P.tf_B_L cloudMsg.points)
          cloudMsg.stamp]) := by
  unfold OdomCloudCallback
  have ha1 : ¬ (s.nodeAlive.getD idx false = false) := by rw [ha]; decide
  simp only [if_neg ha1, if_neg ht, hk, if_pos hel, if_neg hneg, hf]

end branches

/-- Every completed OdomCloudCallback either leaves the state as it is, or is one call of
UpdateSLAMDatabase with the pose of the odometry message, made when the node has no key
frame or the last one is more than 1.0 older than the message. -/
theorem odomCloudCallback_cases (E : Ext) (P : Params) (s : State) (odomMsg : OdomMsg)
    (cloudMsg : CloudMsg) (idx : Nat) (r : State × List Event)
    (h : OdomCloudCallback E P s odomMsg cloudMsg idx = some r) :
    r.1 = s ∨
      (r.1 = (UpdateSLAMDatabase E P s idx ((myTf.ofOdom odomMsg).Pose6D odomMsg.stamp)
              (E.transformPointCloud (myTf.ofOdom odomMsg) P.tf_B_L cloudMsg.points)).1
        ∧ ∀ back, (s.kfPose.getD idx []).getLast? = some back → odomMsg.stamp - back.t > 1) := by
  cases ha : s.nodeAlive.getD idx false with
  | false =>
    rw [odomCloudCallback_dead E P s odomMsg cloudMsg idx ha] at h
    left; cases h; rfl
  | true =>
    by_cases ht : cloudMsg.stamp - odomMsg.stamp > 1 / 1000
    · rw [odomCloudCallback_skew E P s odomMsg cloudMsg idx ha ht] at h
      left; cases h; rfl
    · cases hk : (s.kfPose.getD idx []).getLast? with
      | none =>
        rw [odomCloudCallback_first E P s odomMsg cloudMsg idx ha ht hk] at h
        right; cases h
        exact ⟨rfl, fun back hb => by cases hb⟩
      | some back =>
        by_cases hel : odomMsg.stamp - back.t > 1
        · by_cases hneg : P.kf_knn_num < 0
          · rw [odomCloudCallback_negative_knn E P s odomMsg cloudMsg idx back ha ht hk hel hneg]
              at h
            cases h
          · cases hf : (nearestKSearch E (s.kfPose.getD idx [])
                ((myTf.ofOdom odomMsg).Pose6D odomMsg.stamp) P.kf_knn_num.toNat).2.head? with
            | none =>
              rw [odomCloudCallback_no_front E P s odomMsg cloudMsg idx back ha ht hk hel hneg hf]
                at h
              cases h
            | some front =>
              rw [odomCloudCallback_search E P s odomMsg cloudMsg idx back front ha ht hk hel
                hneg hf] at h
              split at h
              · right; cases h
                exact ⟨rfl, fun b hb => by cases hb; exact hel⟩
              · left; cases h; rfl
        · rw [odomCloudCallback_early E P s odomMsg cloudMsg idx back ha ht hk hel] at h
          left; cases h; rfl

theorem getD_set_self {α : Type} (l : List α) (i : Nat) (x d : α) (hi : i < l.length) :
    (l.set i x).getD i d = x := by
  simp [List.getD_eq_getElem?_getD, List.getElem?_set, hi]

theorem not_skew_of_aligned (a b : ℚ) (h : abs (a - b) ≤ 1 / 1000) : ¬ a - b > 1 / 1000 :=
  not_lt.2 (le_trans (le_abs_self _) h)

/-- C7: an alive node with no stored key frame admits every time-aligned pair, whatever the
parameters: the callback completes and the node then holds exactly one key frame, with the
position, orientation and time stamp of the odometry message. -/
theorem odomCloudCallback_first_admitted (E : Ext) (P : Params) (s : State)
    (odomMsg : OdomMsg) (cloudMsg : CloudMsg) (idx : Nat) (hidx : idx < s.kfPose.length)
    (ha : s.nodeAlive.getD idx false = true) (hempty : s.kfPose.getD idx [] = [])
    (halign : abs (cloudMsg.stamp - odomMsg.stamp) ≤ 1 / 1000) :
    ∃ r, OdomCloudCallback E P s odomMsg cloudMsg idx = some r
      ∧ r.1.kfPose.getD idx [] =
          [{ x := odomMsg.position.x, y := odomMsg.position.y, z := odomMsg.position.z,
             qx := odomMsg.orientation.x, qy := odomMsg.orientation.y,
             qz := odomMsg.orientation.z, qw := odomMsg.orientation.w,
             t := odomMsg.stamp }] := by
  have hk : (s.kfPose.getD idx []).getLast? = none := by rw [hempty]; rfl
  refine ⟨_, odomCloudCallback_first E P s odomMsg cloudMsg idx ha
    (not_skew_of_aligned _ _ halign) hk, ?_⟩
  rw [updateSLAMDatabase_state]
  show (s.kfPose.set idx _).getD idx [] = _
  rw [getD_set_self _ _ _ _ hidx, hempty, pose6D_ofOdom]
  rfl

/-- C7 (witness): uav1 of `airborne`, alive with no key frame, and a pair stamped 1.0. -/
theorem odomCloudCallback_first_admitted_witness :
    ∃ r, OdomCloudCallback Ext.plain Params.default airborne odomAtOne cloudAtOne 0 = some r
      ∧ r.1.kfPose.getD 0 [] =
          [{ x := 0, y := 0, z := 2, qx := 0, qy := 0, qz := 0, qw := 1, t := 1 }] :=
  odomCloudCallback_first_admitted Ext.plain Params.default airborne odomAtOne cloudAtOne 0
    (by decide) (by decide) (by decide) (by norm_num [cloudAtOne, odomAtOne])

theorem length_getD_ne_append {α : Type} (l : List α) (x : α) : l ≠ l ++ [x] := by
  intro h
  have := congrArg List.length h
  simp at this

/-- What the code does on a node with a stored key frame: for an alive node, a time-aligned
pair and kf_knn_num at least 1, OdomCloudCallback completes, and it appends the pose as a
new key frame if and only if the odometry stamp is more than 1.0 after the last stored key
frame and either every stored key frame is at a float squared distance above the double
kf_min_dis*kf_min_dis from the pose, or no key frame returned by the nearest-neighbour
search has an absolute angle difference to the pose below kf_min_ang; otherwise the state
is unchanged. -/
theorem odomCloudCallback_admits_iff (E : Ext) (P : Params) (s : State) (odomMsg : OdomMsg)
    (cloudMsg : CloudMsg) (idx : Nat) (back : PointPose) (hidx : idx < s.kfPose.length)
    (ha : s.nodeAlive.getD idx false = true)
    (hback : (s.kfPose.getD idx []).getLast? = some back)
    (halign : abs (cloudMsg.stamp - odomMsg.stamp) ≤ 1 / 1000)
    (hknn : 0 < P.kf_knn_num) :
    ∃ r, OdomCloudCallback E P s odomMsg cloudMsg idx = some r
      ∧ (r.1.kfPose.getD idx [] =
            s.kfPose.getD idx [] ++ [(myTf.ofOdom odomMsg).Pose6D odomMsg.stamp]
          ↔ odomMsg.stamp - back.t > 1
            ∧ ((∀ p ∈ s.kfPose.getD idx [],
                  E.squaredDistance p ((myTf.ofOdom odomMsg).Pose6D odomMsg.stamp)
                    > E.roundDouble (P.kf_min_dis * P.kf_min_dis))
              ∨ ∀ j ∈ (nearestKSearch E (s.kfPose.getD idx [])
                        ((myTf.ofOdom odomMsg).Pose6D odomMsg.stamp) P.kf_knn_num.toNat).1,
                  P.kf_min_ang ≤
                    abs (E.angleDiff ((s.kfPose.getD idx []).getD j default).quat
                      odomMsg.orientation)))
      ∧ (r.1.kfPose.getD idx [] ≠
            s.kfPose.getD idx [] ++ [(myTf.ofOdom odomMsg).Pose6D odomMsg.stamp]
          → r.1 = s) := by
  have ht := not_skew_of_aligned _ _ halign
  have hne : s.kfPose.getD idx [] ≠ [] := by
    intro h0
    rw [h0] at hback
    cases hback
  by_cases hel : odomMsg.stamp - back.t > 1
  · have hneg : ¬ P.kf_knn_num < 0 := not_lt.2 (le_of_lt hknn)
    have hsome := nearestKSearch_head_isSome E (s.kfPose.getD idx [])
      ((myTf.ofOdom odomMsg).Pose6D odomMsg.stamp) P.kf_knn_num.toNat
      (by omega) hne
    obtain ⟨front, hf⟩ := Option.isSome_iff_exists.1 hsome
    have hfd := nearestKSearch_front_gt E (s.kfPose.getD idx [])
      ((myTf.ofOdom odomMsg).Pose6D odomMsg.stamp) P.kf_knn_num.toNat front
      (E.roundDouble (P.kf_min_dis * P.kf_min_dis)) hf
    have hfa := farAngle_iff E P (s.kfPose.getD idx []) (myTf.ofOdom odomMsg).rot
      (nearestKSearch E (s.kfPose.getD idx [])
        ((myTf.ofOdom odomMsg).Pose6D odomMsg.stamp) P.kf_knn_num.toNat).1
    rw [odomCloudCallback_search E P s odomMsg cloudMsg idx back front ha ht hback hel hneg hf]
    simp only [Bool.or_eq_true, decide_eq_true_eq, hfd, hfa]
    split
    · rename_i hc
      refine ⟨_, rfl, ?_, ?_⟩
      · constructor
        · intro _
          exact ⟨hel, hc⟩
        · intro _
          rw [updateSLAMDatabase_state]
          exact getD_set_self _ _ _ _ hidx
      · intro hn
        exfalso
        apply hn
        rw [updateSLAMDatabase_state]
        exact getD_set_self _ _ _ _ hidx
    · rename_i hc
      refine ⟨_, rfl, ?_, ?_⟩
      · constructor
        · intro h
          exact absurd h (length_getD_ne_append _ _)
        · intro h
          exact absurd h.2 hc
      · intro _
        rfl
  · rw [odomCloudCallback_early E P s odomMsg cloudMsg idx back ha ht hback hel]
    refine ⟨_, rfl, ?_, ?_⟩
    · constructor
      · intro h
        exact absurd h (length_getD_ne_append _ _)
      · intro h
        exact absurd h.1 hel
    · intro _
      rfl

/-- An instance of the search branch: uav1 holds the key pose stamped 0.0; a pair stamped
2.0 at the same place with angle difference 0 is not admitted. -/
theorem odomCloudCallback_admits_iff_witness :
    ∃ r, OdomCloudCallback Ext.plain Params.default oneKeyframe odomAtTwo cloudAtTwo 0 = some r
      ∧ r.1.kfPose.getD 0 [] = [poseAtZero] := by
  obtain ⟨r, hr, hiff, hrej⟩ := odomCloudCallback_admits_iff Ext.plain Params.default
    oneKeyframe odomAtTwo cloudAtTwo 0 poseAtZero (by decide) (by decide) (by decide)
    (by norm_num [cloudAtTwo, odomAtTwo]) (by decide)
  refine ⟨r, hr, ?_⟩
  have hno : r.1.kfPose.getD 0 [] ≠
      oneKeyframe.kfPose.getD 0 [] ++ [(myTf.ofOdom odomAtTwo).Pose6D odomAtTwo.stamp] := by
    intro h
    have h2 := (hiff.1 h).2
    rcases h2 with h2 | h2
    · have := h2 poseAtZero (by decide)
      norm_num [Ext.plain, sqDist, poseAtZero, myTf.Pose6D, myTf.ofOdom, odomAtTwo,
        odomAtOne, Params.default] at this
    · have := h2 0 (by
        simp [nearestKSearch, knnCandidates, oneKeyframe, Params.default])
      norm_num [Ext.plain, Params.default] at this
  rw [hrej hno]
  rfl

/-- C8 (the code at the failing input): the last key frame is 2.0 old, the only stored key
frame is at squared distance 0 from the pose, not above kf_min_dis squared, and its angle
difference to the pose equals kf_min_ang and so does not exceed it; OdomCloudCallback
admits the pair all the same. -/
theorem odomCloudCallback_equal_angle_admitted :
    odomTurned.stamp - poseAtZero.t > 1
      ∧ oneKeyframe.kfPose.getD 0 [] = [poseAtZero]
      ∧ Ext.tenDegrees.squaredDistance poseAtZero
          ((myTf.ofOdom odomTurned).Pose6D odomTurned.stamp) = 0
      ∧ ¬ (Ext.tenDegrees.squaredDistance poseAtZero
            ((myTf.ofOdom odomTurned).Pose6D odomTurned.stamp)
            > Ext.tenDegrees.roundDouble
                (Params.default.kf_min_dis * Params.default.kf_min_dis))
      ∧ abs (Ext.tenDegrees.angleDiff poseAtZero.quat odomTurned.orientation)
          = Params.default.kf_min_ang
      ∧ ∃ r, OdomCloudCallback Ext.tenDegrees Params.default oneKeyframe odomTurned cloudAtTwo 0
            = some r
          ∧ r.1.kfPose.getD 0 [] =
              [poseAtZero, (myTf.ofOdom odomTurned).Pose6D odomTurned.stamp] := by
  have hd : Ext.tenDegrees.squaredDistance poseAtZero
      ((myTf.ofOdom odomTurned).Pose6D odomTurned.stamp) = 0 := by
    norm_num [Ext.tenDegrees, Ext.plain, sqDist, poseAtZero, myTf.Pose6D, myTf.ofOdom,
      odomTurned, odomAtOne]
  have hel : odomTurned.stamp - poseAtZero.t > 1 := by
    norm_num [odomTurned, poseAtZero]
  have hq : poseAtZero.quat ≠ odomTurned.orientation := by
    simp only [PointPose.quat, poseAtZero, odomTurned, ne_eq, Quaternd.mk.injEq]
    norm_num
  have hang : abs (Ext.tenDegrees.angleDiff poseAtZero.quat odomTurned.orientation) = 10 := by
    simp only [Ext.tenDegrees, if_neg hq]
    norm_num
  have hf : (nearestKSearch Ext.tenDegrees (oneKeyframe.kfPose.getD 0 [])
      ((myTf.ofOdom odomTurned).Pose6D odomTurned.stamp)
      Params.default.kf_knn_num.toNat).2.head? = some 0 := by
    simp [nearestKSearch, knnCandidates, oneKeyframe, hd, Params.default]
  have hidx : (nearestKSearch Ext.tenDegrees (oneKeyframe.kfPose.getD 0 [])
      ((myTf.ofOdom odomTurned).Pose6D odomTurned.stamp)
      Params.default.kf_knn_num.toNat).1 = [0] := by
    simp [nearestKSearch, knnCandidates, oneKeyframe, Params.default]
  refine ⟨hel, by decide, hd, ?_, ?_, ?_⟩
  · rw [hd]
    norm_num [Ext.tenDegrees, Ext.plain, Params.default]
  · rw [hang]
    rfl
  · have hcall := odomCloudCallback_search Ext.tenDegrees Params.default oneKeyframe odomTurned
      cloudAtTwo 0 poseAtZero 0 (by decide) (by norm_num [cloudAtTwo, odomTurned]) (by decide)
      hel (by decide) hf
    have hfar : farAngle Ext.tenDegrees Params.default (oneKeyframe.kfPose.getD 0 [])
        (myTf.ofOdom odomTurned).rot
        (nearestKSearch Ext.tenDegrees (oneKeyframe.kfPose.getD 0 [])
          ((myTf.ofOdom odomTurned).Pose6D odomTurned.stamp)
          Params.default.kf_knn_num.toNat).1 = true := by
      rw [farAngle_iff, hidx]
      intro j hj
      rw [List.mem_singleton] at hj
      subst hj
      have h10 : abs (Ext.tenDegrees.angleDiff
          ((oneKeyframe.kfPose.getD 0 []).getD 0 default).quat (myTf.ofOdom odomTurned).rot)
          = 10 := hang
      rw [h10]
      norm_num [Params.default]
    rw [hfar, Bool.or_true, if_pos rfl] at hcall
    exact ⟨_, hcall, by rw [updateSLAMDatabase_state]; rfl⟩

/-! ## PPComCallback -/

/-- The state in which PPComCallback does its updates: the state after the first-report
initialisation, if this is the first report. -/
theorem ppcomCallback_some (E : Ext) (s : State) (msg : PPComTopology)
    (hlen : msg.node_odom.length = (if s.firstshot = true then firstShot s msg else s).Nnodes) :
    ∃ evs, PPComCallback E s msg =
      some ({ (if s.firstshot = true then firstShot s msg else s) with
                nodeOdom := msg.node_odom,
                linkMat := updateDistance msg.range
                  (if s.firstshot = true then firstShot s msg else s).Nnodes
                  (if s.firstshot = true then firstShot s msg else s).linkMat,
                nodeStatus := updateStatus E msg.node_odom
                  (if s.firstshot = true then firstShot s msg else s).Nnodes
                  (if s.firstshot = true then firstShot s msg else s).nodeStatus }, evs) := by
  unfold PPComCallback
  simp only [hlen, ne_eq, not_true_eq_false, if_false]
  exact ⟨_, rfl⟩

theorem ppcomCallback_state (E : Ext) (s : State) (msg : PPComTopology) (r : State × List Event)
    (h : PPComCallback E s msg = some r) :
    msg.node_odom.length = (if s.firstshot = true then firstShot s msg else s).Nnodes
      ∧ r.1 = { (if s.firstshot = true then firstShot s msg else s) with
                nodeOdom := msg.node_odom,
                linkMat := updateDistance msg.range
                  (if s.firstshot = true then firstShot s msg else s).Nnodes
                  (if s.firstshot = true then firstShot s msg else s).linkMat,
                nodeStatus := updateStatus E msg.node_odom
                  (if s.firstshot = true then firstShot s msg else s).Nnodes
                  (if s.firstshot = true then firstShot s msg else s).nodeStatus } := by
  by_cases hlen : msg.node_odom.length = (if s.firstshot = true then firstShot s msg else s).Nnodes
  · obtain ⟨evs, he⟩ := ppcomCallback_some E s msg hlen
    rw [he] at h
    cases h
    exact ⟨hlen, rfl⟩
  · unfold PPComCallback at h
    simp only [ne_eq, hlen, not_false_eq_true, if_true] at h
    cases h

/-! ## Symmetry of the link matrix -/

theorem linkStep_symm (range : List ℚ) (i j : Nat) (acc : MatrixXd × Nat)
    (h : ∀ a b, acc.1.coeff a b = acc.1.coeff b a) :
    ∀ a b, (linkStep range i acc j).1.coeff a b = (linkStep range i acc j).1.coeff b a := by
  intro a b
  simp only [linkStep, MatrixXd.set]
  by_cases h1 : a = j ∧ b = i
  · by_cases h2 : b = j ∧ a = i
    · simp [h1, h2]
    · simp [h1, h2, h1.1, h1.2]
  · by_cases h2 : b = j ∧ a = i
    · simp [h1, h2, h2.1, h2.2]
    · by_cases h3 : a = i ∧ b = j
      · simp [h1, h2, h3, h3.1, h3.2]
      · by_cases h4 : b = i ∧ a = j
        · simp [h1, h2, h3, h4, h4.1, h4.2]
        · simp [h1, h2, h3, h4, h a b]

theorem linkRow_symm (range : List ℚ) (N i : Nat) (acc : MatrixXd × Nat)
    (h : ∀ a b, acc.1.coeff a b = acc.1.coeff b a) :
    ∀ a b, (linkRow range N acc i).1.coeff a b = (linkRow range N acc i).1.coeff b a := by
  unfold linkRow
  generalize List.range' (i + 1) (N - (i + 1)) = js
  induction js generalizing acc with
  | nil => simpa using h
  | cons j js ih =>
    rw [List.foldl_cons]
    exact ih _ (linkStep_symm range i j acc h)

theorem updateDistance_symm (range : List ℚ) (N : Nat) (m : MatrixXd)
    (h : ∀ a b, m.coeff a b = m.coeff b a) :
    ∀ a b, (updateDistance range N m).coeff a b = (updateDistance range N m).coeff b a := by
  unfold updateDistance
  have key : ∀ (is : List Nat) (acc : MatrixXd × Nat),
      (∀ a b, acc.1.coeff a b = acc.1.coeff b a) →
      ∀ a b, (is.foldl (linkRow range N) acc).1.coeff a b
        = (is.foldl (linkRow range N) acc).1.coeff b a := by
    intro is
    induction is with
    | nil => intro acc hacc; simpa using hacc
    | cons i is ih =>
      intro acc hacc
      rw [List.foldl_cons]
      exact ih _ (linkRow_symm range N i acc hacc)
  exact key _ _ h

theorem ppcomCallback_symm (E : Ext) (s : State) (msg : PPComTopology) (r : State × List Event)
    (h : PPComCallback E s msg = some r) (hs : ∀ a b, s.linkMat.coeff a b = s.linkMat.coeff b a) :
    ∀ a b, r.1.linkMat.coeff a b = r.1.linkMat.coeff b a := by
  rw [(ppcomCallback_state E s msg r h).2]
  apply updateDistance_symm
  split
  · intro a b; rfl
  · exact hs

/-! ## Runs -/

theorem run_invariant (E : Ext) (P : Params) (Inv : State → Prop)
    (hstep : ∀ s x r, Inv s → step E P s x = some r → Inv r.1) :
    ∀ (inputs : List Input) (s s' : State), Inv s → run E P s inputs = some s' → Inv s' := by
  intro inputs
  induction inputs with
  | nil =>
    intro s s' hs h
    simp only [run, Option.some.injEq] at h
    rw [← h]
    exact hs
  | cons x xs ih =>
    intro s s' hs h
    unfold run at h
    cases hx : step E P s x with
    | none => rw [hx] at h; cases h
    | some r =>
      rw [hx] at h
      exact ih r.1 s' (hstep s x r hs hx) h

theorem odomCloudCallback_frame (E : Ext) (P : Params) (s : State) (odomMsg : OdomMsg)
    (cloudMsg : CloudMsg) (idx : Nat) (r : State × List Event)
    (h : OdomCloudCallback E P s odomMsg cloudMsg idx = some r) :
    r.1.firstshot = s.firstshot ∧ r.1.nodeAlive = s.nodeAlive ∧ r.1.linkMat = s.linkMat := by
  rcases odomCloudCallback_cases E P s odomMsg cloudMsg idx r h with h1 | ⟨h1, -⟩
  · rw [h1]
    exact ⟨rfl, rfl, rfl⟩
  · rw [h1]
    exact ⟨rfl, rfl, rfl⟩

theorem step_symm (E : Ext) (P : Params) (s : State) (x : Input) (r : State × List Event)
    (hs : ∀ a b, s.linkMat.coeff a b = s.linkMat.coeff b a) (h : step E P s x = some r) :
    ∀ a b, r.1.linkMat.coeff a b = r.1.linkMat.coeff b a := by
  cases x with
  | contacts msg =>
    simp only [step, Option.some.injEq] at h
    rw [← h, contactCallback_eq]
    exact hs
  | ppcom msg => exact ppcomCallback_symm E s msg r h hs
  | odomCloud odomMsg cloudMsg idx =>
    rw [(odomCloudCallback_frame E P s odomMsg cloudMsg idx r h).2.2]
    exact hs

theorem run_reports_some (E : Ext) (P : Params) (N : Nat) :
    ∀ (msgs : List PPComTopology) (s : State),
      (s.firstshot = false → s.Nnodes = N) →
      (s.firstshot = true → ∀ m ∈ msgs.head?, m.node_id.length = N) →
      (∀ m ∈ msgs, m.valid N) →
      ∃ s', run E P s (msgs.map Input.ppcom) = some s' := by
  intro msgs
  induction msgs with
  | nil => intro s _ _ _; exact ⟨s, rfl⟩
  | cons m ms ih =>
    intro s h1 h2 h3
    have hlen : m.node_odom.length = (if s.firstshot = true then firstShot s m else s).Nnodes := by
      rw [(h3 m (List.mem_cons_self m ms)).1]
      cases hf : s.firstshot
      · simp only [Bool.false_eq_true, if_false]
        exact (h1 hf).symm
      · simp only [if_true]
        exact (h2 hf m (by simp)).symm
    obtain ⟨evs, he⟩ := ppcomCallback_some E s m hlen
    have hN : (if s.firstshot = true then firstShot s m else s).Nnodes = N := by
      rw [← hlen]
      exact (h3 m (List.mem_cons_self m ms)).1
    simp only [List.map_cons, run, step, he]
    apply ih
    · intro _
      exact hN
    · intro hf
      exfalso
      revert hf
      cases hfs : s.firstshot <;> simp [hfs, firstShot]
    · intro m' hm'
      exact h3 m' (List.mem_cons_of_mem m hm')

/-- C5: from the start of the program, every sequence of valid reports for N nodes (N the
number of names in the first one) is processed to the end by PPComCallback, and in the
state after it linkMat(i, j) equals linkMat(j, i) for all i and j. -/
theorem linkMat_symmetric (E : Ext) (P : Params) (msgs : List PPComTopology) (N : Nat)
    (hfirst : ∀ m ∈ msgs.head?, m.node_id.length = N) (hvalid : ∀ m ∈ msgs, m.valid N) :
    ∃ s', run E P State.init (msgs.map Input.ppcom) = some s'
      ∧ ∀ i j, s'.linkMat.coeff i j = s'.linkMat.coeff j i := by
  obtain ⟨s', hs'⟩ := run_reports_some E P N msgs State.init
    (fun h => by cases h) (fun _ => hfirst) hvalid
  refine ⟨s', hs', ?_⟩
  exact run_invariant E P (fun s => ∀ a b, s.linkMat.coeff a b = s.linkMat.coeff b a)
    (fun s x r hs h => step_symm E P s x r hs h) _ State.init s' (fun _ _ => rfl) hs'

/-- C5 (witness): two reports of three nodes, the second with every link lost. -/
theorem linkMat_symmetric_witness :
    ∃ s', run Ext.plain Params.default State.init
        ([reportThree, reportThreeDark].map Input.ppcom) = some s'
      ∧ ∀ i j, s'.linkMat.coeff i j = s'.linkMat.coeff j i :=
  linkMat_symmetric Ext.plain Params.default [reportThree, reportThreeDark] 3
    (by simp [reportThree])
    (by simp [PPComTopology.valid, reportThree, reportThreeDark])

/-! ## Liveness -/

theorem step_dead (E : Ext) (P : Params) (i : Nat) (s : State) (x : Input)
    (r : State × List Event)
    (hs : s.firstshot = false ∧ s.nodeAlive[i]? = some false) (h : step E P s x = some r) :
    r.1.firstshot = false ∧ r.1.nodeAlive[i]? = some false := by
  cases x with
  | contacts msg =>
    simp only [step, Option.some.injEq] at h
    rw [← h, contactCallback_eq]
    refine ⟨hs.1, ?_⟩
    show (aliveAfter s msg)[i]? = some false
    rw [aliveAfter_getElem?, hs.2]
    split <;> rfl
  | ppcom msg =>
    have h2 := (ppcomCallback_state E s msg r h).2
    rw [h2]
    simp only [hs.1, Bool.false_eq_true, if_false]
    exact ⟨trivial, hs.2⟩
  | odomCloud odomMsg cloudMsg idx =>
    obtain ⟨h1, h2, -⟩ := odomCloudCallback_frame E P s odomMsg cloudMsg idx r h
    rw [h1, h2]
    exact hs

/-- C6: once the first report has been processed, a node whose alive flag is false keeps
it false through every sequence of contact batches, reports and sensor pairs. -/
theorem liveness_monotonic (E : Ext) (P : Params) (s : State) (inputs : List Input)
    (s' : State) (i : Nat) (hfirst : s.firstshot = false)
    (hdead : s.nodeAlive[i]? = some false) (hrun : run E P s inputs = some s') :
    s'.nodeAlive[i]? = some false :=
  (run_invariant E P (fun s => s.firstshot = false ∧ s.nodeAlive[i]? = some false)
    (fun s x r hs h => step_dead E P i s x r hs h) inputs s s' ⟨hfirst, hdead⟩ hrun).2

/-- C6 (witness): the dead uav1 of `crashed` through a contact batch, a report and a
sensor pair. -/
theorem liveness_monotonic_witness :
    ∃ s', run Ext.plain Params.default crashed
        [Input.contacts [wallHit], Input.ppcom reportTwo,
          Input.odomCloud odomAtOne cloudAtOne 0] = some s'
      ∧ s'.nodeAlive[0]? = some false := by
  obtain ⟨s', hs'⟩ : ∃ s', run Ext.plain Params.default crashed
      [Input.contacts [wallHit], Input.ppcom reportTwo,
        Input.odomCloud odomAtOne cloudAtOne 0] = some s' := ⟨_, rfl⟩
  exact ⟨s', hs', liveness_monotonic Ext.plain Params.default crashed _ s' 0 rfl
    (by decide) hs'⟩

/-! ## Order of the stored key frames -/

theorem getD_mem_or_nil {α : Type} (l : List (List α)) (i : Nat) :
    l.getD i [] ∈ l ∨ l.getD i [] = [] := by
  by_cases hi : i < l.length
  · left
    rw [List.getD_eq_getElem l [] hi]
    exact List.getElem_mem _
  · right
    rw [List.getD_eq_default l [] (not_lt.1 hi)]

theorem odomCloudCallback_kfPose (E : Ext) (P : Params) (s : State) (odomMsg : OdomMsg)
    (cloudMsg : CloudMsg) (idx : Nat) (r : State × List Event)
    (h : OdomCloudCallback E P s odomMsg cloudMsg idx = some r) :
    r.1.kfPose = s.kfPose ∨
      (r.1.kfPose = s.kfPose.set idx
          (s.kfPose.getD idx [] ++ [(myTf.ofOdom odomMsg).Pose6D odomMsg.stamp])
        ∧ ∀ back, (s.kfPose.getD idx []).getLast? = some back → back.t + 1 < odomMsg.stamp) := by
  rcases odomCloudCallback_cases E P s odomMsg cloudMsg idx r h with h1 | ⟨h1, h2⟩
  · left; rw [h1]
  · right
    refine ⟨by rw [h1, updateSLAMDatabase_state], ?_⟩
    intro back hb
    have := h2 back hb
    linarith

theorem step_spaced (E : Ext) (P : Params) (s : State) (x : Input) (r : State × List Event)
    (hs : ∀ l ∈ s.kfPose, l.Chain' (fun a b : PointPose => a.t + 1 < b.t))
    (h : step E P s x = some r) :
    ∀ l ∈ r.1.kfPose, l.Chain' (fun a b : PointPose => a.t + 1 < b.t) := by
  cases x with
  | contacts msg =>
    simp only [step, Option.some.injEq] at h
    rw [← h, contactCallback_eq]
    exact hs
  | ppcom msg =>
    rw [(ppcomCallback_state E s msg r h).2]
    intro l hl
    have hl2 : l ∈ (if s.firstshot = true then firstShot s msg else s).kfPose := hl
    split at hl2
    · rcases List.mem_append.1 hl2 with h1 | h1
      · exact hs l h1
      · rw [(List.mem_replicate.1 h1).2]
        exact List.chain'_nil
    · exact hs l hl2
  | odomCloud odomMsg cloudMsg idx =>
    rcases odomCloudCallback_kfPose E P s odomMsg cloudMsg idx r h with h1 | ⟨h1, h2⟩
    · rw [h1]; exact hs
    · rw [h1]
      intro l hl
      rcases List.mem_or_eq_of_mem_set hl with h3 | h3
      · exact hs l h3
      · rw [h3]
        have hkf : (s.kfPose.getD idx []).Chain' (fun a b : PointPose => a.t + 1 < b.t) := by
          rcases getD_mem_or_nil s.kfPose idx with h4 | h4
          · exact hs _ h4
          · rw [h4]; exact List.chain'_nil
        refine List.Chain'.append hkf (List.chain'_singleton _) ?_
        intro a ha b hb
        simp only [List.head?_cons, Option.mem_def, Option.some.injEq] at hb
        rw [← hb]
        exact h2 a ha

/-- C10: in every state reached from the start of the program, the key frames stored for
each node are ordered in time, each more than 1.0 later than every one stored before it,
and one more OdomCloudCallback leaves the stored lists as they are or appends exactly one
key frame to the list of its node. -/
theorem keyframes_time_ordered (E : Ext) (P : Params) (inputs : List Input) (s' : State)
    (hrun : run E P State.init inputs = some s') :
    (∀ l ∈ s'.kfPose, l.Pairwise (fun a b : PointPose => a.t + 1 < b.t))
      ∧ ∀ odomMsg cloudMsg idx r, OdomCloudCallback E P s' odomMsg cloudMsg idx = some r →
          r.1.kfPose = s'.kfPose
            ∨ r.1.kfPose = s'.kfPose.set idx
                (s'.kfPose.getD idx [] ++ [(myTf.ofOdom odomMsg).Pose6D odomMsg.stamp]) := by
  constructor
  · have hc := run_invariant E P
      (fun s => ∀ l ∈ s.kfPose, l.Chain' (fun a b : PointPose => a.t + 1 < b.t))
      (fun s x r hs h => step_spaced E P s x r hs h) inputs State.init s'
      (fun l hl => by cases hl) hrun
    haveI : IsTrans PointPose (fun a b : PointPose => a.t + 1 < b.t) :=
      ⟨fun a b c hab hbc => by linarith⟩
    intro l hl
    exact List.chain'_iff_pairwise.1 (hc l hl)
  · intro odomMsg cloudMsg idx r h
    rcases odomCloudCallback_kfPose E P s' odomMsg cloudMsg idx r h with h1 | ⟨h1, -⟩
    · exact Or.inl h1
    · exact Or.inr h1

/-- C10 (witness): the first report of one node, then a sensor pair stamped 1.0 at the
origin of the plane and a pair stamped 3.0 ten metres away; both are stored, in this
order, and the second key frame is more than 1.0 later than the first. -/
theorem keyframes_time_ordered_witness :
    ∃ s', run Ext.plain Params.default State.init
        [Input.ppcom reportOne, Input.odomCloud odomAtOne cloudAtOne 0,
          Input.odomCloud odomFar cloudAtThree 0] = some s'
      ∧ s'.kfPose =
          [[{ x := 0, y := 0, z := 2, qx := 0, qy := 0, qz := 0, qw := 1, t := 1 },
            { x := 10, y := 0, z := 2, qx := 0, qy := 0, qz := 0, qw := 1, t := 3 }]]
      ∧ ∀ l ∈ s'.kfPose, l.Pairwise (fun a b : PointPose => a.t + 1 < b.t) := by
  cases hp : PPComCallback Ext.plain State.init reportOne with
  | none =>
    obtain ⟨evs, he⟩ := ppcomCallback_some Ext.plain State.init reportOne rfl
    rw [he] at hp
    cases hp
  | some r1 =>
    have hst := (ppcomCallback_state Ext.plain State.init reportOne r1 hp).2
    have ha : r1.1.nodeAlive.getD 0 false = true := by rw [hst]; decide
    have hkf : r1.1.kfPose = [[]] := by rw [hst]; rfl
    have hk : (r1.1.kfPose.getD 0 []).getLast? = none := by rw [hkf]; rfl
    have h2 := odomCloudCallback_first Ext.plain Params.default r1.1 odomAtOne cloudAtOne 0 ha
      (by norm_num [cloudAtOne, odomAtOne]) hk
    obtain ⟨s2, hs2⟩ : ∃ s2, s2 = (UpdateSLAMDatabase Ext.plain Params.default r1.1 0
        ((myTf.ofOdom odomAtOne).Pose6D odomAtOne.stamp)
        (Ext.plain.transformPointCloud (myTf.ofOdom odomAtOne) Params.default.tf_B_L
          cloudAtOne.points)).1 := ⟨_, rfl⟩
    rw [← hs2] at h2
    have hkf2 : s2.kfPose = [[(myTf.ofOdom odomAtOne).Pose6D odomAtOne.stamp]] := by
      rw [hs2, updateSLAMDatabase_state]
      show r1.1.kfPose.set 0 _ = _
      rw [hkf]
      rfl
    have ha2 : s2.nodeAlive.getD 0 false = true := by
      rw [hs2, updateSLAMDatabase_state]
      exact ha
    have hget2 : s2.kfPose.getD 0 [] = [(myTf.ofOdom odomAtOne).Pose6D odomAtOne.stamp] := by
      rw [hkf2]
      rfl
    have hback : (s2.kfPose.getD 0 []).getLast? =
        some ((myTf.ofOdom odomAtOne).Pose6D odomAtOne.stamp) := by
      rw [hget2]
      rfl
    have hel : odomFar.stamp - ((myTf.ofOdom odomAtOne).Pose6D odomAtOne.stamp).t > 1 := by
      norm_num [odomFar, odomAtOne, myTf.Pose6D]
    have hf : (nearestKSearch Ext.plain (s2.kfPose.getD 0 [])
        ((myTf.ofOdom odomFar).Pose6D odomFar.stamp)
        Params.default.kf_knn_num.toNat).2.head? = some 100 := by
      rw [hget2]
      simp [nearestKSearch, knnCandidates, Params.default, Ext.plain, sqDist, myTf.Pose6D,
        myTf.ofOdom, odomFar, odomAtOne]
      norm_num
    have h3 := odomCloudCallback_search Ext.plain Params.default s2 odomFar cloudAtThree 0
      ((myTf.ofOdom odomAtOne).Pose6D odomAtOne.stamp) 100 ha2
      (by norm_num [cloudAtThree, odomFar]) hback hel (by decide) hf
    have hfar : decide ((100 : ℚ) > Ext.plain.roundDouble
        (Params.default.kf_min_dis * Params.default.kf_min_dis)) = true := by
      rw [decide_eq_true_iff]
      norm_num [Ext.plain, Params.default]
    rw [hfar, Bool.true_or, if_pos rfl] at h3
    have hrun : run Ext.plain Params.default State.init
        [Input.ppcom reportOne, Input.odomCloud odomAtOne cloudAtOne 0,
          Input.odomCloud odomFar cloudAtThree 0]
          = some (UpdateSLAMDatabase Ext.plain Params.default s2 0
              ((myTf.ofOdom odomFar).Pose6D odomFar.stamp)
              (Ext.plain.transformPointCloud (myTf.ofOdom odomFar) Params.default.tf_B_L
                cloudAtThree.points)).1 := by
      simp only [run, step, hp, h2, h3]
    refine ⟨_, hrun, ?_, (keyframes_time_ordered Ext.plain Params.default _ _ hrun).1⟩
    rw [updateSLAMDatabase_state]
    show s2.kfPose.set 0 (s2.kfPose.getD 0 [] ++ _) = _
    rw [hget2, hkf2]
    rfl

/-! ## Kinematic status -/

theorem statusStep_getElem? (E : Ext) (nodeOdom : List OdomMsg) (st : List String)
    (k i : Nat) :
    (statusStep E nodeOdom st k)[i]? =
      if k = i then st[i]?.map (statusAfter E (nodeOdom.getD i default)) else st[i]? := by
  unfold statusStep statusAfter
  by_cases hk : k = i
  · subst hk
    simp only [if_true]
    by_cases hl : k < st.length
    · split <;> split <;>
        simp [List.getElem?_set, hl, List.getElem?_eq_getElem hl, *,
          -List.getD_eq_getElem?_getD]
    · have hn : st[k]? = none := List.getElem?_eq_none (not_lt.1 hl)
      split <;> split <;> simp [List.getElem?_set, hl, hn]
  · simp only [if_neg hk]
    split <;> split <;> simp [List.getElem?_set, hk]

theorem updateStatus_getElem? (E : Ext) (nodeOdom : List OdomMsg) (st : List String)
    (i : Nat) :
    ∀ N, (updateStatus E nodeOdom N st)[i]? =
      if i < N then st[i]?.map (statusAfter E (nodeOdom.getD i default)) else st[i]? := by
  intro N
  unfold updateStatus
  induction N with
  | zero => simp
  | succ n ih =>
    rw [List.range_succ, List.foldl_append, List.foldl_cons, List.foldl_nil,
      statusStep_getElem?, ih]
    by_cases h1 : n = i
    · subst h1
      simp
    · by_cases h2 : i < n
      · have : i < n + 1 := Nat.lt_succ_of_lt h2
        simp [h1, h2, this]
      · have : ¬ i < n + 1 := by omega
        simp [h1, h2, this]

/-- The link with the norm of real numbers: if the double that `vel.norm()` returns is
within `δ` of the norm of the linear velocity, then a node above the double 0.1 whose real
speed is more than `δ` above it becomes on_air, and a node below the double 0.1 whose real
speed is more than `δ` below it becomes on_ground. -/
theorem statusAfter_of_real_norm (E : Ext) (odom : OdomMsg) (before : String) (δ : ℝ)
    (hacc : abs ((E.norm { x := odom.linear.x, y := odom.linear.y, z := odom.linear.z } : ℝ)
      - Real.sqrt ((odom.linear.x : ℝ) ^ 2 + (odom.linear.y : ℝ) ^ 2
          + (odom.linear.z : ℝ) ^ 2)) ≤ δ) :
    (odom.position.z > double_0_1
        ∧ Real.sqrt ((odom.linear.x : ℝ) ^ 2 + (odom.linear.y : ℝ) ^ 2
            + (odom.linear.z : ℝ) ^ 2) > (double_0_1 : ℝ) + δ →
      statusAfter E odom before = "on_air")
    ∧ (odom.position.z < double_0_1
        ∧ Real.sqrt ((odom.linear.x : ℝ) ^ 2 + (odom.linear.y : ℝ) ^ 2
            + (odom.linear.z : ℝ) ^ 2) < (double_0_1 : ℝ) - δ →
      statusAfter E odom before = "on_ground") := by
  have h := abs_le.1 hacc
  constructor
  · rintro ⟨hz, hv⟩
    have hn : (double_0_1 : ℝ) <
        (E.norm { x := odom.linear.x, y := odom.linear.y, z := odom.linear.z } : ℝ) := by
      linarith [h.1]
    have hn' : E.norm { x := odom.linear.x, y := odom.linear.y, z := odom.linear.z }
        > double_0_1 := by exact_mod_cast hn
    unfold statusAfter
    have hnz : ¬ odom.position.z < double_0_1 := not_lt.2 (le_of_lt hz)
    rw [if_neg (fun hh => hnz hh.1), if_pos ⟨hz, hn'⟩]
  · rintro ⟨hz, hv⟩
    have hn : (E.norm { x := odom.linear.x, y := odom.linear.y, z := odom.linear.z } : ℝ)
        < (double_0_1 : ℝ) := by
      linarith [h.2]
    have hn' : E.norm { x := odom.linear.x, y := odom.linear.y, z := odom.linear.z }
        < double_0_1 := by exact_mod_cast hn
    unfold statusAfter
    rw [if_pos ⟨hz, hn'⟩]

/-- C11: after PPComCallback has processed a report, the status of every node i is on_air
if the altitude of its odometry in the report is above 0.1 and its speed is above 0.1;
on_ground if both are below 0.1; and otherwise the status the node had before the report,
which is on_ground when the report is the first one. The speed is the double that
`vel.norm()` returns for the linear velocity of the report, and 0.1 is the double that the
literal denotes. -/
theorem ppcomCallback_status (E : Ext) (s : State) (msg : PPComTopology)
    (r : State × List Event) (i : Nat) (h : PPComCallback E s msg = some r)
    (hi : i < r.1.Nnodes) (hlen : s.firstshot = false → i < s.nodeStatus.length) :
    ((msg.node_odom.getD i default).position.z > double_0_1
        ∧ E.norm { x := (msg.node_odom.getD i default).linear.x,
                   y := (msg.node_odom.getD i default).linear.y,
                   z := (msg.node_odom.getD i default).linear.z } > double_0_1 →
      r.1.nodeStatus.getD i "" = "on_air")
    ∧ ((msg.node_odom.getD i default).position.z < double_0_1
        ∧ E.norm { x := (msg.node_odom.getD i default).linear.x,
                   y := (msg.node_odom.getD i default).linear.y,
                   z := (msg.node_odom.getD i default).linear.z } < double_0_1 →
      r.1.nodeStatus.getD i "" = "on_ground")
    ∧ (¬ ((msg.node_odom.getD i default).position.z > double_0_1
          ∧ E.norm { x := (msg.node_odom.getD i default).linear.x,
                     y := (msg.node_odom.getD i default).linear.y,
                     z := (msg.node_odom.getD i default).linear.z } > double_0_1) →
       ¬ ((msg.node_odom.getD i default).position.z < double_0_1
          ∧ E.norm { x := (msg.node_odom.getD i default).linear.x,
                     y := (msg.node_odom.getD i default).linear.y,
                     z := (msg.node_odom.getD i default).linear.z } < double_0_1) →
      r.1.nodeStatus.getD i "" =
        if s.firstshot = true then "on_ground" else s.nodeStatus.getD i "") := by
  obtain ⟨-, hst⟩ := ppcomCallback_state E s msg r h
  have hN : r.1.Nnodes = (if s.firstshot = true then firstShot s msg else s).Nnodes := by
    rw [hst]
  have hS : r.1.nodeStatus = updateStatus E msg.node_odom
      (if s.firstshot = true then firstShot s msg else s).Nnodes
      (if s.firstshot = true then firstShot s msg else s).nodeStatus := by
    rw [hst]
  rw [hN] at hi
  have hbefore : (if s.firstshot = true then firstShot s msg else s).nodeStatus[i]? =
      some (if s.firstshot = true then "on_ground" else s.nodeStatus.getD i "") := by
    cases hf : s.firstshot
    · have hl := hlen hf
      simp only [Bool.false_eq_true, if_false]
      rw [List.getElem?_eq_getElem hl, List.getD_eq_getElem _ _ hl]
    · rw [hf] at hi
      simp only [if_true] at hi ⊢
      have hi' : i < msg.node_id.length := hi
      simp only [firstShot]
      rw [List.getElem?_replicate]
      simp [hi']
  have hget : r.1.nodeStatus.getD i "" =
      statusAfter E (msg.node_odom.getD i default)
        (if s.firstshot = true then "on_ground" else s.nodeStatus.getD i "") := by
    rw [List.getD_eq_getElem?_getD, hS, updateStatus_getElem?, if_pos hi, hbefore]
    rfl
  refine ⟨?_, ?_, ?_⟩
  · rintro ⟨hz, hv⟩
    rw [hget]
    unfold statusAfter
    have hnz : ¬ (msg.node_odom.getD i default).position.z < double_0_1 :=
      not_lt.2 (le_of_lt hz)
    rw [if_neg (fun hh => hnz hh.1), if_pos ⟨hz, hv⟩]
  · rintro ⟨hz, hv⟩
    rw [hget]
    unfold statusAfter
    rw [if_pos ⟨hz, hv⟩]
  · intro h1 h2
    rw [hget]
    unfold statusAfter
    rw [if_neg h2, if_neg h1]

/-- C11 (witness): the first report has uav1 at height 2 with speed 1 and gcs at height 0
with speed 0; after the report uav1 is on_air. -/
theorem ppcomCallback_status_witness :
    ∃ r, PPComCallback Ext.plain State.init reportFlying = some r
      ∧ r.1.nodeStatus.getD 0 "" = "on_air" := by
  cases hp : PPComCallback Ext.plain State.init reportFlying with
  | none =>
    obtain ⟨evs, he⟩ := ppcomCallback_some Ext.plain State.init reportFlying rfl
    rw [he] at hp
    cases hp
  | some r =>
    have hst := (ppcomCallback_state Ext.plain State.init reportFlying r hp).2
    have hi : 0 < r.1.Nnodes := by rw [hst]; decide
    have hz : (reportFlying.node_odom.getD 0 default).position.z > double_0_1 := by
      norm_num [reportFlying, odomFlying, odomAtOne, double_0_1]
    have hv : Ext.plain.norm
        { x := (reportFlying.node_odom.getD 0 default).linear.x,
          y := (reportFlying.node_odom.getD 0 default).linear.y,
          z := (reportFlying.node_odom.getD 0 default).linear.z } > double_0_1 := by
      norm_num [reportFlying, odomFlying, odomAtOne, double_0_1, Ext.plain, sqrtDown,
        Vector3d.squaredNorm]
    exact ⟨r, rfl, (ppcomCallback_status Ext.plain State.init reportFlying r 0 hp hi
      (fun hf => by cases hf)).1 ⟨hz, hv⟩⟩

end MissionManager
